import Mathlib

/-!
Shallow embedding of the candidate-assessment core of the repository:
`src/assessment_engine.py` (class `AssessmentEngine`) and the skill-matching
part of `src/nlp_analyzer.py` (`calculate_job_match_score`, `_skills_match`).

Python `float` arithmetic is modelled by `ℚ`; Python integers by `ℤ`; a value
that may be either a Python `int` or a Python `float` (the `total_years`
field) is modelled by `PyNum`.  Python dictionaries produced by the engine are
modelled by structures whose fields keep the dictionary keys' names; the
heterogeneous `component_scores` dictionary (whose values are dicts, except
for hypothetical bare-number entries that the source guards against with
`isinstance` checks) is modelled by an association list over the five keys the
engine ever inserts.  `round(x, 2)` is modelled by `round2` using Mathlib's
`round` on ℚ.  Exceptions are modelled with `Except String`: the operations
that can raise in the source (`statistics.mean` on an empty list, a division
whose divisor can be zero, `max`/`min` of an empty sequence) return
`Except`, and the `try/except` in `conduct_comprehensive_assessment` is the
`Except`-eliminating wrapper `conduct_comprehensive_assessment` itself.
-/

namespace Assessment

/-- Model of a Python number that is either an `int` or a `float`
(`candidate_data['extracted_experience']['total_years']` can be either,
and the distinction is observable through string formatting). -/
inductive PyNum where
  | int (n : ℤ)
  | float (q : ℚ)
deriving DecidableEq

/-- Numeric value of a `PyNum` (both Python `int` and `float` compare and
compute numerically). -/
def PyNum.toQ : PyNum → ℚ
  | .int n => (n : ℚ)
  | .float q => q

/-- Model of Python `str(x)` for a `PyNum`.  `str` of an `int` is its decimal
form; `str` of a `float` always contains a `.` (or an exponent), which is what
makes `int(...)` fail on it.  The textual form of the fractional part is not
reproduced exactly (Python writes `16.5`, this model writes `33/2`); only the
properties used by the engine — the substring `"years"` test and the
failure of `int()` on any float rendering — are preserved. -/
def pyNumStr : PyNum → String
  | .int n => toString n
  | .float q => if q.den = 1 then toString q.num ++ ".0" else toString q

/-- Model of Python `round(q, 2)`.  Mathlib's `round` (round-half-up) stands
in for Python's float rounding; the two agree away from exact .xx5 ties, and
no tie arises at any concrete value considered in this development. -/
def round2 (q : ℚ) : ℚ := (round (q * 100) : ℚ) / 100

/-- Model of Python `str.lower()` (character-wise lowering; adequate for the
ASCII skill/title/feedback strings the engine compares). -/
def pyLower (s : String) : String :=
  ⟨s.data.map Char.toLower⟩

/-- Model of Python `str.capitalize()`'s effect as used on the resume
analysis sentence (upper-case the first character). -/
def pyCapitalize (s : String) : String :=
  match s.data with
  | [] => ⟨[]⟩
  | c :: rest => ⟨Char.toUpper c :: rest⟩

/-- Whether `hay` starts with `needle` (character lists). -/
def listStartsWith : List Char → List Char → Bool
  | _, [] => true
  | [], _ :: _ => false
  | h :: t, n :: ns => h == n && listStartsWith t ns

/-- Whether `needle` occurs somewhere in `hay` (character lists). -/
def listHasSub : List Char → List Char → Bool
  | [], needle => needle.isEmpty
  | h :: t, needle => listStartsWith (h :: t) needle || listHasSub t needle

/-- Model of the Python substring test `needle in hay`. -/
def strContains (hay needle : String) : Bool :=
  listHasSub hay.data needle.data

/-- Splits a character list on whitespace, dropping empty runs — the word
list of Python `str.split()`. -/
def wordsAux (current : List Char) : List Char → List (List Char)
  | [] => if current.isEmpty then [] else [current.reverse]
  | c :: rest =>
    if c.isWhitespace then
      if current.isEmpty then wordsAux [] rest
      else current.reverse :: wordsAux [] rest
    else wordsAux (c :: current) rest

/-- Model of Python `str.split()` (split on whitespace runs, dropping empty
pieces). -/
def pySplitWs (s : String) : List String :=
  (wordsAux [] s.data).map (fun cs => ⟨cs⟩)

/-- Model of Python `len(s)` (number of characters). -/
def pyStrLen (s : String) : ℕ := s.data.length

/-- Model of Python `len(s.split('\n'))`: one more than the number of
newline characters. -/
def pyLineCount (s : String) : ℕ := s.data.count '\n' + 1

/-- Model of the Python membership test `ch in s` for a single character. -/
def pyHasChar (s : String) (c : Char) : Bool := s.data.contains c

/-- Model of `statistics.mean`: raises `StatisticsError` on an empty list. -/
def pymean (l : List ℚ) : Except String ℚ :=
  if l.isEmpty then .error "mean requires at least one data point"
  else .ok (l.sum / l.length)

/-- Model of Python `", ".join` style joining. -/
def strJoin (sep : String) : List String → String
  | [] => ""
  | [x] => x
  | x :: xs => x ++ sep ++ strJoin sep xs

/-- Model of Python `max(scores)` for a nonempty list via fold (keeps the
first maximum, as Python does). -/
def pyListMax (x : ℚ) (xs : List ℚ) : ℚ :=
  xs.foldl (fun b a => if a > b then a else b) x

/-- Stable descending insertion used to model Python
`sorted(items, key=lambda x: x[1], reverse=True)`. -/
def insertDescByVal (x : String × ℚ) : List (String × ℚ) → List (String × ℚ)
  | [] => [x]
  | y :: ys => if y.2 > x.2 then y :: insertDescByVal x ys else x :: y :: ys

/-- Model of Python `sorted(items, key=lambda x: x[1], reverse=True)`
(stable, descending by the numeric second component). -/
def sortDescByVal (l : List (String × ℚ)) : List (String × ℚ) :=
  l.foldr insertDescByVal []

/-- Stable ascending insertion used to model Python
`sorted(items, key=lambda x: x[1])`. -/
def insertAscByVal (x : String × ℚ) : List (String × ℚ) → List (String × ℚ)
  | [] => [x]
  | y :: ys => if y.2 < x.2 then y :: insertAscByVal x ys else x :: y :: ys

/-- Model of Python `sorted(items, key=lambda x: x[1])` (stable, ascending). -/
def sortAscByVal (l : List (String × ℚ)) : List (String × ℚ) :=
  l.foldr insertAscByVal []

/-- Model of Python `list(set(xs))` for strings: deduplication producing a
deterministic order (within one interpreter process the set order is a fixed
function of the inserted elements; first-occurrence order stands in for it). -/
def pySetList (xs : List String) : List String := xs.eraseDups

/-! ## Skill matching (`src/nlp_analyzer.py`) -/

/-- The hardcoded synonym table of `NLPAnalyzer._skills_match`. -/
def skillVariations : List (String × List String) :=
  [("javascript", ["js", "node.js", "nodejs"]),
   ("typescript", ["ts"]),
   ("python", ["py"]),
   ("postgresql", ["postgres"]),
   ("mongodb", ["mongo"]),
   ("kubernetes", ["k8s"]),
   ("docker", ["containerization"]),
   ("aws", ["amazon web services"]),
   ("gcp", ["google cloud platform", "google cloud"])]

/-- `NLPAnalyzer._skills_match(skill1, skill2)`: exact match, substring match
in either direction, or membership in the synonym table in either direction.
Both arguments are already lower-cased by the caller. -/
def skills_match (skill1 skill2 : String) : Bool :=
  skill1 == skill2 ||
  strContains skill2 skill1 || strContains skill1 skill2 ||
  skillVariations.any (fun p =>
    (skill1 == p.1 && p.2.contains skill2) || (skill2 == p.1 && p.2.contains skill1))

/-- Result dictionary of `calculate_job_match_score`.  In the
empty-requirements early return the source dictionary carries no
`total_required`/`total_matched` keys; those fields are therefore `Option`. -/
structure MatchResult where
  match_score : ℚ
  matched_skills : List String
  missing_skills : List String
  total_required : Option ℕ
  total_matched : Option ℕ
deriving DecidableEq

/-- Whether one required skill is matched by any (lower-cased) candidate
skill — the `any(...)` test of the per-requirement loop. -/
def skillIsMatched (candidate_skills : List String) (req : String) : Bool :=
  (candidate_skills.map pyLower).any (fun skill => skills_match (pyLower req) skill)

/-- The `matched_skills` list accumulated by the loop. -/
def matchedSkillsOf (candidate_skills job_requirements : List String) : List String :=
  job_requirements.filter (fun req => skillIsMatched candidate_skills req)

/-- The `missing_skills` list accumulated by the loop. -/
def missingSkillsOf (candidate_skills job_requirements : List String) : List String :=
  job_requirements.filter (fun req => ¬ skillIsMatched candidate_skills req)

/-- `NLPAnalyzer.calculate_job_match_score(candidate_skills, job_requirements)`. -/
def calculate_job_match_score (candidate_skills job_requirements : List String) :
    MatchResult :=
  if job_requirements.isEmpty then
    { match_score := 0, matched_skills := [], missing_skills := job_requirements,
      total_required := none, total_matched := none }
  else
    let matched_skills := matchedSkillsOf candidate_skills job_requirements
    let missing_skills := missingSkillsOf candidate_skills job_requirements
    let match_score := ((matched_skills.length : ℚ) / job_requirements.length) * 100
    { match_score := round2 match_score,
      matched_skills := matched_skills,
      missing_skills := missing_skills,
      total_required := some job_requirements.length,
      total_matched := some matched_skills.length }

/-! ## Input data model (`candidate_data`, `job_description`, interview responses)

The engine reads its inputs through `dict.get` with per-site defaults.  Fields
whose absence is observable (because two call sites use different defaults, or
because truthiness of `None` matters) are `Option`; fields whose absent-value
default coincides with the empty value are modelled directly by the empty
value. -/

/-- The slices of `candidate_data` read by the engine, with the nested
`extracted_skills` / `extracted_experience` / `extracted_education`
dictionaries flattened into named fields. -/
structure Candidate where
  id : Option String
  name : Option String
  email : String
  resume_text : String
  all_skills : List String
  technical_skills : List (String × List String)
  soft_skills : List String
  total_years : PyNum
  job_titles : List String
  companies : List String
  employment_gaps : List (ℚ × ℚ)
  shows_growth : Bool
  leadership_progression : Bool
  responsibilities : List String
  experience_level : Option String
  degrees : List String
  education_level : Option String
deriving DecidableEq

/-- The slices of `job_description` read by the engine. -/
structure Job where
  id : Option String
  title : Option String
  required_skills : List String
  preferred_skills : List String
  experience_level : Option String
deriving DecidableEq

/-- The `evaluation` sub-dictionary of one interview response as read by the
engine: `overall_score` via `.get('overall_score', 0)`, the
`scores.communication_clarity` path via `.get(..., 70)`. -/
structure Evaluation where
  overall_score : Option ℚ
  communication_clarity : Option ℚ
  strengths : List String
  areas_for_improvement : List String
  feedback : String
deriving DecidableEq

/-- One interview response record; `category` models the
`response['question']['category']` path read with default `'unknown'`. -/
structure InterviewResponse where
  evaluation : Evaluation
  category : Option String
deriving DecidableEq

/-! ## Component score values

The values stored in the engine's `component_scores` dictionary.  Each typed
constructor corresponds to the dictionary shape one scorer returns; `num`
models a bare-number entry (the source type-checks for this case with
`isinstance(score_data, dict)` everywhere), and `plain` models the
`{'overall_score': 50}` dictionaries of the fallback report. -/

/-- Return dictionary of `_assess_resume_quality`, with its
`component_scores` sub-dictionary flattened. -/
structure ResumeScore where
  overall_score : ℚ
  completeness : ℚ
  skill_diversity : ℚ
  experience_depth : ℚ
  education_relevance : ℚ
  presentation_quality : ℚ
  analysis : String
deriving DecidableEq

/-- Return dictionary of `_assess_skill_match`, with its `analysis`
sub-dictionary flattened into `analysis_`-named fields. -/
structure SkillMatchScore where
  overall_score : ℚ
  required_skills_match : MatchResult
  preferred_skills_match : MatchResult
  skill_depth_score : ℚ
  analysis_strong_matches : List String
  analysis_missing_critical : List String
  analysis_additional_value : List String
deriving DecidableEq

/-- The data of the `years_vs_requirement` analysis string
`f"{total_years} years (requirement: {min_years}-{max_years})"`, kept
structured alongside its rendering so that the risk detector's string
re-parsing can be modelled (see `parseYearsToken`). -/
structure YearsInfo where
  total_years : PyNum
  min_years : ℚ
  max_years : ℚ
deriving DecidableEq

/-- The rendered `years_vs_requirement` string. -/
def YearsInfo.render (yi : YearsInfo) : String :=
  pyNumStr yi.total_years ++ " years (requirement: " ++
    toString yi.min_years ++ "-" ++ toString yi.max_years ++ ")"

/-- Return dictionary of `_assess_experience_relevance`, with
`component_scores` and `analysis` flattened. -/
structure ExpScore where
  overall_score : ℚ
  years_alignment : ℚ
  role_relevance : ℚ
  industry_match : ℚ
  progression_quality : ℚ
  leadership_experience : ℚ
  experience_level_match : Bool
  years_vs_requirement : YearsInfo
  career_highlights : List String
  progression_shows_growth : Bool
  progression_leadership : Bool
deriving DecidableEq

/-- Return dictionary of `_assess_interview_performance`.  The
no-responses early return produces only `overall_score` and a string
`analysis`; that shape is modelled by `analysis_note = some note` with the
remaining fields empty. -/
structure IntScore where
  overall_score : ℚ
  category_scores : List (String × ℚ)
  total_questions : ℕ
  strongest_categories : List (String × ℚ)
  improvement_areas : List (String × ℚ)
  key_strengths : List String
  development_needs : List String
  analysis_note : Option String
deriving DecidableEq

/-- Return dictionary of `_assess_cultural_fit`, `analysis` flattened. -/
structure CulturalScore where
  overall_score : ℚ
  communication_style : String
  collaboration_indicators : List String
  adaptability_signals : List String
  values_alignment : String
deriving DecidableEq

/-- Keys the engine ever inserts into `component_scores`. -/
inductive ComponentKey where
  | resume_analysis
  | skill_match
  | interview_performance
  | experience_relevance
  | cultural_fit
deriving DecidableEq

/-- A value of the `component_scores` dictionary. -/
inductive CompVal where
  | num (q : ℚ)
  | plain (overall_score : ℚ)
  | resume (r : ResumeScore)
  | skill (s : SkillMatchScore)
  | exper (e : ExpScore)
  | interview (i : IntScore)
  | cultural (c : CulturalScore)
deriving DecidableEq

/-- Model of `isinstance(score_data, dict)`. -/
def CompVal.isDict : CompVal → Bool
  | .num _ => false
  | _ => true

/-- Model of `score_data.get('overall_score', 0) if isinstance(score_data,
dict) else score_data`: every dictionary a scorer or the fallback produces
carries the `overall_score` key, and the bare-number case yields the number
itself. -/
def CompVal.objScore : CompVal → ℚ
  | .num q => q
  | .plain q => q
  | .resume r => r.overall_score
  | .skill s => s.overall_score
  | .exper e => e.overall_score
  | .interview i => i.overall_score
  | .cultural c => c.overall_score

/-- Model of the `['required_skills_match']['missing_skills']` path read with
`dict.get` defaults (`[]` when the keys are absent, i.e. on any value that is
not a skill-match dictionary). -/
def CompVal.missingRequired : CompVal → List String
  | .skill s => s.required_skills_match.missing_skills
  | _ => []

/-- Model of the `['analysis']['years_vs_requirement']` path read with
`dict.get` defaults: `none` stands for the default `''` (which fails the
`'years' in years_info` guard), produced by any value that is not an
experience-relevance dictionary. -/
def CompVal.yearsVs : CompVal → Option YearsInfo
  | .exper e => some e.years_vs_requirement
  | _ => none

/-- The engine's `component_scores` dictionary: an insertion-ordered
association list (Python dicts preserve insertion order and the engine only
ever inserts fresh keys). -/
abbrev CSMap : Type := List (ComponentKey × CompVal)

/-- Dictionary lookup `component_scores.get(key)`. -/
def lookupCS (cs : CSMap) (k : ComponentKey) : Option CompVal :=
  List.lookup k cs

/-! ## AssessmentEngine configuration (`__init__`) -/

/-- `self.assessment_weights`, in Python dict insertion order. -/
def assessment_weights : List (ComponentKey × ℚ) :=
  [(.resume_analysis, 0.30), (.skill_match, 0.25),
   (.interview_performance, 0.35), (.experience_relevance, 0.10)]

/-- `self.score_thresholds['strong_hire']`. -/
def threshold_strong_hire : ℚ := 85

/-- `self.score_thresholds['hire']`. -/
def threshold_hire : ℚ := 70

/-- `self.score_thresholds['maybe']`. -/
def threshold_maybe : ℚ := 55

/-! ## `_assess_resume_quality` -/

/-- The `education_scores` table with its `.get(level, 40)` default. -/
def educationScore (level : String) : ℚ :=
  if level == "doctorate" then 100
  else if level == "masters" then 85
  else if level == "bachelors" then 70
  else if level == "associates" then 55
  else if level == "high_school" then 40
  else 40

/-- `_generate_resume_analysis(score_components)`. -/
def generate_resume_analysis (completeness skill_diversity experience_depth : ℚ) :
    String :=
  let p1 := if completeness ≥ 80 then "Resume contains all essential sections"
    else if completeness ≥ 60 then "Resume is mostly complete with minor gaps"
    else "Resume is missing key sections"
  let p2 := if skill_diversity ≥ 80 then "demonstrates diverse technical competencies"
    else if skill_diversity ≥ 60 then "shows adequate technical skills"
    else "has limited technical skill representation"
  let p3 := if experience_depth ≥ 80 then "and substantial professional experience"
    else if experience_depth ≥ 60 then "and moderate professional experience"
    else "but limited professional experience"
  pyCapitalize (strJoin ". " [p1, p2, p3]) ++ "."

/-- The completeness block of `_assess_resume_quality`: number of the four
required sections present (truthy email, job titles, skills, degrees). -/
def resumeSectionsPresent (cand : Candidate) : ℕ :=
  (if cand.email ≠ "" then 1 else 0) +
  (if cand.job_titles ≠ [] then 1 else 0) +
  (if cand.all_skills ≠ [] then 1 else 0) +
  (if cand.degrees ≠ [] then 1 else 0)

/-- `score_components['completeness'] = (sections_present / 4) * 100`. -/
def resumeCompleteness (cand : Candidate) : ℚ :=
  ((resumeSectionsPresent cand : ℚ) / 4) * 100

/-- `score_components['skill_diversity'] = min(100, 5·|all_skills| +
10·(nonempty technical categories))`. -/
def resumeSkillDiversity (cand : Candidate) : ℚ :=
  min 100 ((cand.all_skills.length : ℚ) * 5 +
    (((cand.technical_skills.filter (fun p => p.2 ≠ [])).length : ℕ) : ℚ) * 10)

/-- `score_components['experience_depth'] = min(100, 10·years + 5·titles +
3·companies)`. -/
def resumeExperienceDepth (cand : Candidate) : ℚ :=
  min 100 (cand.total_years.toQ * 10 + (cand.job_titles.length : ℚ) * 5 +
    (cand.companies.length : ℚ) * 3)

/-- `score_components['education_relevance']` from the fixed table. -/
def resumeEducationRelevance (cand : Candidate) : ℚ :=
  educationScore (cand.education_level.getD "high_school")

/-- `score_components['presentation_quality']`: base 70, +10 per formatting
indicator, capped at 100. -/
def resumePresentationQuality (cand : Candidate) : ℚ :=
  min 100 (70 + (if pyStrLen cand.resume_text > 500 then 10 else 0) +
    (if pyLineCount cand.resume_text > 20 then 10 else 0) +
    (if pyHasChar cand.resume_text '•' ∨ pyHasChar cand.resume_text '▪' ∨
        pyHasChar cand.resume_text '◦' then 10 else 0))

/-- `_assess_resume_quality(candidate_data)`. -/
def assess_resume_quality (cand : Candidate) : ResumeScore :=
  let completeness := resumeCompleteness cand
  let skill_diversity := resumeSkillDiversity cand
  let experience_depth := resumeExperienceDepth cand
  let education_relevance := resumeEducationRelevance cand
  let presentation_quality := resumePresentationQuality cand
  let overall : ℚ :=
    completeness * 0.25 + skill_diversity * 0.25 + experience_depth * 0.25 +
    education_relevance * 0.15 + presentation_quality * 0.10
  { overall_score := round2 overall,
    completeness := completeness,
    skill_diversity := skill_diversity,
    experience_depth := experience_depth,
    education_relevance := education_relevance,
    presentation_quality := presentation_quality,
    analysis := generate_resume_analysis completeness skill_diversity experience_depth }

/-! ## `_assess_skill_match` -/

/-- `_assess_skill_depth(technical_skills, required_skills)`. -/
def assess_skill_depth (technical_skills : List (String × List String))
    (required_skills : List String) : ℚ :=
  if technical_skills.isEmpty ∨ required_skills.isEmpty then 50
  else
    let total_categories := technical_skills.length
    let populated_categories :=
      (technical_skills.filter (fun p => p.2 ≠ [])).length
    let breadth_score : ℚ :=
      if total_categories > 0 then
        ((populated_categories : ℚ) / total_categories) * 100
      else 0
    let total_skills : ℕ := (technical_skills.map (fun p => p.2.length)).sum
    let depth_score : ℚ := min 100 ((total_skills : ℚ) * 5)
    breadth_score * 0.4 + depth_score * 0.6

/-- `_assess_skill_match(candidate_data, job_description)`. -/
def assess_skill_match (cand : Candidate) (job : Job) : SkillMatchScore :=
  let required_match := calculate_job_match_score cand.all_skills job.required_skills
  let preferred_match := calculate_job_match_score cand.all_skills job.preferred_skills
  let overall_match_score :=
    required_match.match_score * 0.7 + preferred_match.match_score * 0.3
  let skill_depth_score := assess_skill_depth cand.technical_skills job.required_skills
  let final_score := overall_match_score * 0.8 + skill_depth_score * 0.2
  { overall_score := round2 final_score,
    required_skills_match := required_match,
    preferred_skills_match := preferred_match,
    skill_depth_score := skill_depth_score,
    analysis_strong_matches := required_match.matched_skills.take 5,
    analysis_missing_critical := required_match.missing_skills.take 5,
    analysis_additional_value :=
      (cand.all_skills.filter (fun skill =>
        ¬ (job.required_skills ++ job.preferred_skills).contains skill)).take 5 }

/-! ## `_assess_experience_relevance` -/

/-- The `level_requirements` table with its `.get(job_level, (3, 7))` default. -/
def levelRequirements (job_level : String) : ℚ × ℚ :=
  if job_level == "entry" then (0, 2)
  else if job_level == "junior" then (1, 3)
  else if job_level == "mid" then (3, 7)
  else if job_level == "senior" then (5, 12)
  else if job_level == "executive" then (8, 20)
  else (3, 7)

/-- Loop body of `_calculate_role_relevance`: the per-title relevance scores
(`len(set(target) & set(title)) / len(target_keywords) * 100`); the count of
common keywords is the number of distinct target keywords occurring among the
title's keywords.  The division raises `ZeroDivisionError` when
`target_keywords` is empty. -/
def relevanceScoresFor (target_keywords : List String) :
    List String → Except String (List ℚ)
  | [] => .ok []
  | title :: rest => do
    let title_keywords := pySplitWs (pyLower title)
    let common_keywords :=
      target_keywords.dedup.filter (fun w => title_keywords.contains w)
    if target_keywords.length = 0 then .error "division by zero"
    else do
      let relevance := ((common_keywords.length : ℚ) / target_keywords.length) * 100
      let others ← relevanceScoresFor target_keywords rest
      pure (relevance :: others)

/-- `_calculate_role_relevance(job_titles, target_role)`.  The division by
`len(target_keywords)` raises `ZeroDivisionError` when the target role is a
nonempty string containing no word (e.g. whitespace only), which is why the
result is `Except`. -/
def calculate_role_relevance (job_titles : List String) (target_role : String) :
    Except String ℚ :=
  if job_titles.isEmpty ∨ target_role = "" then .ok 50
  else do
    let target_keywords := pySplitWs (pyLower target_role)
    let relevance_scores ← relevanceScoresFor target_keywords job_titles
    match relevance_scores with
    | [] => .ok 50
    | x :: xs => .ok (pyListMax x xs)

/-- The years-alignment block of `_assess_experience_relevance`: 100 inside
the level's (min, max) range; `max(70, 100 − 5·overshoot)` above it;
`100·years/min` below it (0 when min is 0). -/
def yearsAlignment (total_years min_years max_years : ℚ) : ℚ :=
  if min_years ≤ total_years ∧ total_years ≤ max_years then 100
  else if total_years > max_years then
    max 70 (100 - (total_years - max_years) * 5)
  else
    if min_years > 0 then (total_years / min_years) * 100 else 0

/-- `_assess_experience_relevance(candidate_data, job_description)`. -/
def assess_experience_relevance (cand : Candidate) (job : Job) :
    Except String ExpScore := do
  let job_title := job.title.getD ""
  let job_level := job.experience_level.getD "mid"
  let total_years := cand.total_years.toQ
  let experience_level := cand.experience_level.getD "entry"
  let mm := levelRequirements job_level
  let min_years := mm.1
  let max_years := mm.2
  let years_alignment : ℚ := yearsAlignment total_years min_years max_years
  let role_relevance ← calculate_role_relevance cand.job_titles job_title
  let progression_base : ℚ :=
    70 + (if cand.shows_growth then 20 else 0) +
    (if cand.leadership_progression then 10 else 0)
  let progression_quality := min 100 progression_base
  let leadership_base : ℚ :=
    50 + (if cand.leadership_progression then 30 else 0) +
    (if cand.job_titles.any (fun title =>
        strContains (pyLower title) "lead" || strContains (pyLower title) "manager")
      then 20 else 0)
  let leadership_experience := min 100 leadership_base
  let industry_match : ℚ := 75
  let overall : ℚ :=
    years_alignment * 0.30 + role_relevance * 0.30 + progression_quality * 0.20 +
    leadership_experience * 0.10 + industry_match * 0.10
  pure
    { overall_score := round2 overall,
      years_alignment := years_alignment,
      role_relevance := role_relevance,
      industry_match := industry_match,
      progression_quality := progression_quality,
      leadership_experience := leadership_experience,
      experience_level_match := experience_level == job_level,
      years_vs_requirement :=
        { total_years := cand.total_years, min_years := min_years,
          max_years := max_years },
      career_highlights := cand.job_titles.take 3,
      progression_shows_growth := cand.shows_growth,
      progression_leadership := cand.leadership_progression }

/-! ## `_assess_interview_performance` -/

/-- Appends a score to its category's bucket, creating the bucket at the end
on first occurrence (Python `dict` insertion order). -/
def addToCat : List (String × List ℚ) → String → ℚ → List (String × List ℚ)
  | [], c, q => [(c, [q])]
  | (k, v) :: rest, c, q =>
    if k == c then (k, v ++ [q]) :: rest else (k, v) :: addToCat rest c q

/-- The per-response `overall_score` values (`all_scores` in the source). -/
def interviewAllScores (l : List InterviewResponse) : List ℚ :=
  l.map (fun r => r.evaluation.overall_score.getD 0)

/-- The category buckets (`category_scores` in the source), in first-seen
category order. -/
def interviewCategoryGroups (l : List InterviewResponse) :
    List (String × List ℚ) :=
  l.foldl (fun acc r =>
    addToCat acc (r.category.getD "unknown") (r.evaluation.overall_score.getD 0)) []

/-- `category_averages`: `statistics.mean` per bucket. -/
def categoryAverages (groups : List (String × List ℚ)) :
    Except String (List (String × ℚ)) :=
  groups.mapM (fun p => do
    let m ← pymean p.2
    pure (p.1, m))

/-- `_assess_interview_performance(interview_responses)`. -/
def assess_interview_performance (l : List InterviewResponse) :
    Except String IntScore :=
  if l.isEmpty then
    .ok { overall_score := 0, category_scores := [], total_questions := 0,
          strongest_categories := [], improvement_areas := [],
          key_strengths := [], development_needs := [],
          analysis_note := some "No interview data available" }
  else do
    let all_scores := interviewAllScores l
    let overall_interview_score ←
      if all_scores.isEmpty then pure (0 : ℚ) else pymean all_scores
    let category_averages ← categoryAverages (interviewCategoryGroups l)
    let strengths := (l.map (fun r => r.evaluation.strengths)).flatten
    let weaknesses := (l.map (fun r => r.evaluation.areas_for_improvement)).flatten
    pure { overall_score := round2 overall_interview_score,
           category_scores := category_averages,
           total_questions := l.length,
           strongest_categories := (sortDescByVal category_averages).take 3,
           improvement_areas := (sortAscByVal category_averages).take 3,
           key_strengths := (pySetList strengths).take 5,
           development_needs := (pySetList weaknesses).take 5,
           analysis_note := none }

/-! ## `_assess_cultural_fit` -/

/-- Model of Python truthiness `if interview_responses:` on an
optional list (`None` and `[]` are both falsy). -/
def pyTruthyL (ir : Option (List InterviewResponse)) : Bool :=
  match ir with
  | some l => !l.isEmpty
  | none => false

/-- `_assess_cultural_fit(candidate_data, interview_responses)`. -/
def assess_cultural_fit (cand : Candidate)
    (ir : Option (List InterviewResponse)) : Except String CulturalScore := do
  let resps := if pyTruthyL ir then ir.getD [] else []
  let communication_scores := resps.map (fun r =>
    r.evaluation.communication_clarity.getD 70)
  let collab_from_interview := resps.filterMap (fun r =>
    let feedback := pyLower r.evaluation.feedback
    if strContains feedback "collaborative" || strContains feedback "team" then
      some "Shows teamwork orientation"
    else none)
  let adapt_from_interview := resps.filterMap (fun r =>
    let feedback := pyLower r.evaluation.feedback
    if strContains feedback "adaptable" || strContains feedback "flexible" then
      some "Demonstrates adaptability"
    else none)
  let cultural_fit_score ←
    if communication_scores.isEmpty then pure (70 : ℚ)
    else do
      let avg_comm_score ← pymean communication_scores
      pure ((70 + avg_comm_score) / 2)
  let collab_from_resp := cand.responsibilities.filterMap (fun resp =>
    let r := pyLower resp
    if strContains r "team" || strContains r "collaborate" || strContains r "mentor"
    then some "Experience with team collaboration" else none)
  let adapt_from_resp := cand.responsibilities.filterMap (fun resp =>
    let r := pyLower resp
    if strContains r "adapt" || strContains r "change" || strContains r "transform"
    then some "Experience with change management" else none)
  pure { overall_score := round2 cultural_fit_score,
         communication_style := "professional",
         collaboration_indicators := collab_from_interview ++ collab_from_resp,
         adaptability_signals := adapt_from_interview ++ adapt_from_resp,
         values_alignment := "moderate" }

/-! ## `_calculate_overall_score` -/

/-- The (score, weight) pair of each weighted component present in the map,
in the iteration order of `self.assessment_weights`. -/
def presentPairs (cs : CSMap) : List (ℚ × ℚ) :=
  assessment_weights.filterMap (fun kw =>
    (lookupCS cs kw.1).map (fun v => (v.objScore, kw.2)))

/-- `_calculate_overall_score(component_scores)`: one loop accumulating
`total_score` and `total_weight`, then
`round(total_score / total_weight if total_weight > 0 else 0, 2)`. -/
def calculate_overall_score (cs : CSMap) : ℚ :=
  let total_score := (presentPairs cs).foldl (fun a p => a + p.1 * p.2) 0
  let total_weight := (presentPairs cs).foldl (fun a p => a + p.2) 0
  round2 (if total_weight > 0 then total_score / total_weight else 0)

/-! ## `_identify_risk_factors` -/

/-- One risk-factor dictionary. -/
structure RiskFactor where
  type : String
  severity : String
  description : String
  mitigation : String
deriving DecidableEq

/-- Model of `int(years_info.split()[0])` applied to the
`f"{total_years} years (requirement: ...)"` string: `int()` of the string
form of a Python `int` returns that integer; `int()` of the string form of
any Python `float` (which always contains `'.'` or an exponent) raises
`ValueError`, which the source swallows with `except (ValueError,
IndexError): pass`. -/
def parseYearsToken : PyNum → Option ℤ
  | .int n => some n
  | .float _ => none

/-- The employment-gap scan of `_identify_risk_factors`: one risk per gap
interval longer than 1 year, medium if ≤ 2 years else high. -/
def employmentGapRisks (cand : Candidate) : List RiskFactor :=
  cand.employment_gaps.filterMap (fun g =>
    let gap_length : ℚ := g.2 - g.1
    if gap_length > 1 then
      let gl := toString gap_length
      let gs := toString g.1
      let ge := toString g.2
      some { type := "employment_gap",
             severity := if gap_length ≤ 2 then "medium" else "high",
             description := "Employment gap of " ++ gl ++ " years (" ++ gs ++ "-" ++ ge ++ ")",
             mitigation := "Discuss reasons for gap and activities during this period" }
    else none)

/-- The skill-gap check of `_identify_risk_factors`: one medium risk when
the skill-match component's missing-required list is nonempty. -/
def skillGapRisks (cs : CSMap) : List RiskFactor :=
  match lookupCS cs .skill_match with
  | some v =>
    if v.isDict then
      let missing_skills := v.missingRequired
      if missing_skills ≠ [] then
        [{ type := "skill_gap", severity := "medium",
           description := "Missing required skills: " ++
             strJoin ", " (missing_skills.take 3),
           mitigation := "Assess learning ability and provide training plan" }]
      else []
    else []
  | none => []

/-- The overqualification check of `_identify_risk_factors`: re-parses the
formatted `years_vs_requirement` string (`'years' in years_info` guard, then
`int(years_info.split()[0])` with `ValueError/IndexError` silently passed)
and raises one low risk when the parsed years exceed 15. -/
def overqualificationRisks (cs : CSMap) : List RiskFactor :=
  match lookupCS cs .experience_relevance with
  | some v =>
    if v.isDict then
      match v.yearsVs with
      | some yi =>
        if strContains yi.render "years" then
          match parseYearsToken yi.total_years with
          | some actual_years =>
            if actual_years > 15 then
              [{ type := "overqualification", severity := "low",
                 description := "Candidate may be overqualified for the role",
                 mitigation := "Discuss career goals and long-term commitment" }]
            else []
          | none => []
        else []
      | none => []
    else []
  | none => []

/-- The weak-interview check of `_identify_risk_factors`: one high risk when
the interview component's overall score is below 60. -/
def interviewPerformanceRisks (cs : CSMap) : List RiskFactor :=
  match lookupCS cs .interview_performance with
  | some v =>
    if v.isDict then
      if v.objScore < 60 then
        [{ type := "interview_performance", severity := "high",
           description := "Below-average interview performance",
           mitigation := "Consider additional interview rounds or practical assessments" }]
      else []
    else []
  | none => []

/-- `_identify_risk_factors(candidate_data, component_scores)`: the four
checks append their findings in source order. -/
def identify_risk_factors (cand : Candidate) (cs : CSMap) : List RiskFactor :=
  employmentGapRisks cand ++ skillGapRisks cs ++ overqualificationRisks cs ++
    interviewPerformanceRisks cs

/-! ## `_generate_recommendations`, `_determine_hiring_recommendation`,
`_calculate_confidence_level`, `_extract_strengths_and_development_areas`,
`_generate_detailed_analysis` -/

/-- The `recommendations` bundle. The fallback report's bundle carries only
the first two keys; the missing keys are modelled by empty lists. -/
structure Recommendations where
  hiring_decision : String
  next_steps : List String
  development_plan : List String
  onboarding_focus : List String
  follow_up_questions : List String
deriving DecidableEq

/-- The `detailed_analysis` dictionary of a successful assessment, with its
`candidate_summary` / `role_alignment` / `assessment_summary` sub-dictionaries
flattened. -/
structure DetailedAnalysis where
  name : String
  experience_level : String
  total_years : PyNum
  key_skills : List String
  education_level : String
  position : String
  skill_match_percentage : ℚ
  experience_alignment : ℚ
  cultural_fit_score : ℚ
  total_components_evaluated : ℕ
  highest_scoring_area : ComponentKey
  lowest_scoring_area : ComponentKey
deriving DecidableEq

/-- `detailed_analysis` is either the full analysis or the fallback's
`{'error': ...}` dictionary. -/
inductive AnalysisPayload where
  | analysis (d : DetailedAnalysis)
  | error_note (msg : String)
deriving DecidableEq

/-- `_generate_recommendations(overall_score, component_scores,
detailed_analysis)`; the third argument is unused in the source body. -/
def generate_recommendations (overall_score : ℚ) (cs : CSMap)
    (_detailed_analysis : AnalysisPayload) : Recommendations :=
  let hd :=
    if overall_score ≥ threshold_strong_hire then
      ("Strong Hire - Excellent candidate with minimal risk",
       ["Proceed with offer preparation",
        "Conduct reference checks",
        "Prepare comprehensive onboarding plan"])
    else if overall_score ≥ threshold_hire then
      ("Hire - Good candidate with manageable development needs",
       ["Conduct final interview round",
        "Verify key skills through practical assessment",
        "Prepare targeted development plan"])
    else if overall_score ≥ threshold_maybe then
      ("Maybe - Candidate shows potential but has significant gaps",
       ["Conduct additional technical assessment",
        "Interview with senior team members",
        "Evaluate cultural fit more thoroughly"])
    else
      ("No Hire - Candidate does not meet minimum requirements",
       ["Provide constructive feedback",
        "Consider for future opportunities if applicable",
        "Document assessment for learning purposes"])
  let development_plan := cs.filterMap (fun kv =>
    if kv.2.objScore < 70 then
      match kv.1 with
      | .skill_match => some "Technical skills training in missing areas"
      | .interview_performance =>
        some "Communication and presentation skills development"
      | .experience_relevance =>
        some "Mentoring and guidance in role-specific responsibilities"
      | _ => none
    else none)
  { hiring_decision := hd.1, next_steps := hd.2,
    development_plan := development_plan,
    onboarding_focus := [], follow_up_questions := [] }

/-- `_determine_hiring_recommendation(overall_score, risk_factors)`. -/
def determine_hiring_recommendation (overall_score : ℚ)
    (risk_factors : List RiskFactor) : String :=
  let base_recommendation :=
    if overall_score ≥ threshold_strong_hire then "strong_hire"
    else if overall_score ≥ threshold_hire then "hire"
    else if overall_score ≥ threshold_maybe then "maybe"
    else "no_hire"
  let high_risk_count :=
    (risk_factors.filter (fun r => r.severity == "high")).length
  if high_risk_count ≥ 2 then
    if base_recommendation == "strong_hire" then "hire"
    else if base_recommendation == "hire" then "maybe"
    else "no_hire"
  else base_recommendation

/-- `_calculate_confidence_level(component_scores, has_interview_data)`;
`len(self.assessment_weights)` is 4. -/
def calculate_confidence_level (cs : CSMap) (has_interview_data : Bool) : ℚ :=
  let base_confidence : ℚ := 70 + (if has_interview_data then 20 else 0)
  let complete_components :=
    (cs.filter (fun kv => kv.2.isDict && decide (kv.2.objScore > 0))).length
  let completeness_bonus := ((complete_components : ℚ) / 4) * 10
  min 100 (base_confidence + completeness_bonus)

/-- The per-component strength template of
`_extract_strengths_and_development_areas` (only the four named components
have a branch; `cultural_fit` and any other key fall through). -/
def strengthTemplate (k : ComponentKey) (score : ℚ) : Option String :=
  let s := toString score
  match k with
  | .skill_match => some ("Strong technical skill alignment (" ++ s ++ "%)")
  | .experience_relevance => some ("Highly relevant experience (" ++ s ++ "%)")
  | .interview_performance => some ("Excellent interview performance (" ++ s ++ "%)")
  | .resume_analysis => some ("Well-structured professional profile (" ++ s ++ "%)")
  | .cultural_fit => none

/-- The per-component development-area template (same four branches). -/
def devTemplate (k : ComponentKey) : Option String :=
  match k with
  | .skill_match => some "Technical skills gap in key areas"
  | .experience_relevance => some "Limited relevant experience"
  | .interview_performance => some "Interview communication needs improvement"
  | .resume_analysis => some "Professional presentation could be enhanced"
  | .cultural_fit => none

/-- Loop body of `_extract_strengths_and_development_areas`. -/
def extractStep (acc : List String × List String)
    (kv : ComponentKey × CompVal) : List String × List String :=
  if kv.2.isDict then
    let score := kv.2.objScore
    if score ≥ 80 then
      match strengthTemplate kv.1 score with
      | some s => (acc.1 ++ [s], acc.2)
      | none => acc
    else if score < 60 then
      match devTemplate kv.1 with
      | some d => (acc.1, acc.2 ++ [d])
      | none => acc
    else acc
  else acc

/-- `_extract_strengths_and_development_areas(detailed_analysis,
component_scores)`; the first argument is unused in the source body. -/
def extract_strengths_and_development_areas (_detailed : AnalysisPayload)
    (cs : CSMap) : List String × List String :=
  let sd := cs.foldl extractStep ([], [])
  (sd.1.take 5, sd.2.take 5)

/-- Model of `component_scores.get(key, {}).get('overall_score', 0)`: absent
key yields 0 through the `{}` default; a bare-number value would raise
`AttributeError` (`int` has no `.get`). -/
def dictOverall (cs : CSMap) (k : ComponentKey) : Except String ℚ :=
  match lookupCS cs k with
  | none => .ok 0
  | some v => if v.isDict then .ok v.objScore else .error "AttributeError"

/-- Model of `max(items, key=score)[0]` over the component map: raises
`ValueError` on an empty dictionary, keeps the first maximum on ties. -/
def maxKeyByScore : CSMap → Except String ComponentKey
  | [] => .error "max() arg is an empty sequence"
  | x :: xs =>
    .ok (xs.foldl (fun b a => if a.2.objScore > b.2.objScore then a else b) x).1

/-- Model of `min(items, key=score)[0]` over the component map. -/
def minKeyByScore : CSMap → Except String ComponentKey
  | [] => .error "min() arg is an empty sequence"
  | x :: xs =>
    .ok (xs.foldl (fun b a => if a.2.objScore < b.2.objScore then a else b) x).1

/-- `_generate_detailed_analysis(candidate_data, job_description,
component_scores)`. -/
def generate_detailed_analysis (cand : Candidate) (job : Job) (cs : CSMap) :
    Except String DetailedAnalysis := do
  let smp ← dictOverall cs .skill_match
  let ea ← dictOverall cs .experience_relevance
  let cfs ← dictOverall cs .cultural_fit
  let hi ← maxKeyByScore cs
  let lo ← minKeyByScore cs
  pure { name := cand.name.getD "Unknown",
         experience_level := cand.experience_level.getD "unknown",
         total_years := cand.total_years,
         key_skills := cand.all_skills.take 10,
         education_level := cand.education_level.getD "unknown",
         position := job.title.getD "Unknown",
         skill_match_percentage := smp,
         experience_alignment := ea,
         cultural_fit_score := cfs,
         total_components_evaluated := cs.length,
         highest_scoring_area := hi,
         lowest_scoring_area := lo }

/-! ## The assembled report, the fallback, and
`conduct_comprehensive_assessment` -/

/-- The `AssessmentReport` dictionary.  `assessment_timestamp` is `Option`
because the fallback dictionary carries no such key (`none`). -/
structure Report where
  candidate_id : Option String
  job_id : Option String
  assessment_timestamp : Option String
  overall_score : ℚ
  component_scores : List (ComponentKey × CompVal)
  detailed_analysis : AnalysisPayload
  recommendations : Recommendations
  risk_factors : List RiskFactor
  strengths : List String
  development_areas : List String
  hiring_recommendation : String
  confidence_level : ℚ
deriving DecidableEq

/-- `_get_fallback_assessment()`: a constant dictionary (its construction
cannot raise). -/
def get_fallback_assessment : Report :=
  { candidate_id := none, job_id := none, assessment_timestamp := none,
    overall_score := 50,
    component_scores :=
      [(.resume_analysis, .plain 50), (.skill_match, .plain 50),
       (.experience_relevance, .plain 50)],
    detailed_analysis :=
      .error_note "Assessment could not be completed due to technical issues",
    recommendations :=
      { hiring_decision := "Manual Review Required",
        next_steps := ["Conduct manual assessment", "Review technical issues"],
        development_plan := [], onboarding_focus := [],
        follow_up_questions := [] },
    risk_factors :=
      [{ type := "technical_error", severity := "high",
         description := "Automated assessment failed",
         mitigation := "Conduct manual review" }],
    strengths := ["Assessment data available"],
    development_areas := ["Technical assessment needed"],
    hiring_recommendation := "manual_review",
    confidence_level := 20 }

/-- Step 4 of the pipeline: `if interview_responses:` add the
interview-performance component. -/
def interviewStep (ir : Option (List InterviewResponse)) (cs1 : CSMap) :
    Except String CSMap :=
  if pyTruthyL ir then do
    let i ← assess_interview_performance (ir.getD [])
    pure (cs1 ++ [(.interview_performance, .interview i)])
  else pure cs1

/-- The body of the `try:` block of `conduct_comprehensive_assessment`
(steps 1–12), with the wall-clock timestamp passed explicitly. -/
def assessBody (cand : Candidate) (job : Job)
    (ir : Option (List InterviewResponse)) (now : String) :
    Except String Report := do
  let resume := assess_resume_quality cand
  let skill := assess_skill_match cand job
  let exper ← assess_experience_relevance cand job
  let cs2 ← interviewStep ir
    [(.resume_analysis, .resume resume), (.skill_match, .skill skill),
     (.experience_relevance, .exper exper)]
  let overall := calculate_overall_score cs2
  let detailed ← generate_detailed_analysis cand job cs2
  let cultural ← assess_cultural_fit cand ir
  let cs3 := cs2 ++ [(.cultural_fit, .cultural cultural)]
  let risks := identify_risk_factors cand cs3
  let recs := generate_recommendations overall cs3 (.analysis detailed)
  let hiring := determine_hiring_recommendation overall risks
  let conf := calculate_confidence_level cs3 ir.isSome
  let sd := extract_strengths_and_development_areas (.analysis detailed) cs3
  pure { candidate_id := cand.id, job_id := job.id,
         assessment_timestamp := some now,
         overall_score := overall,
         component_scores := cs3,
         detailed_analysis := .analysis detailed,
         recommendations := recs,
         risk_factors := risks,
         strengths := sd.1,
         development_areas := sd.2,
         hiring_recommendation := hiring,
         confidence_level := conf }

/-- `conduct_comprehensive_assessment`: the `try/except Exception` boundary
around the body — any internal failure yields the fallback report. -/
def conduct_comprehensive_assessment (cand : Candidate) (job : Job)
    (ir : Option (List InterviewResponse)) (now : String) : Report :=
  match assessBody cand job ir now with
  | .ok r => r
  | .error _ => get_fallback_assessment

/-! ## Specification-side definitions

These definitions follow the wording of the specification (tiers with
inclusive lower bounds, one-tier downgrade, renormalized weighted average,
four-component confidence count, one templated string per qualifying
component).  They are compared against the source-derived functions above. -/

/-- Spec wording: tier of a numeric overall score with inclusive lower
bounds `strong_hire`(≥85) > `hire`(≥70) > `maybe`(≥55) > `no_hire`(<55). -/
def specTier (score : ℚ) : String :=
  if score ≥ 85 then "strong_hire"
  else if score ≥ 70 then "hire"
  else if score ≥ 55 then "maybe"
  else "no_hire"

/-- Spec wording: downgrade exactly one tier (`strong_hire→hire`,
`hire→maybe`, `maybe→no_hire`, `no_hire→no_hire`). -/
def specDowngrade (tier : String) : String :=
  if tier == "strong_hire" then "hire"
  else if tier == "hire" then "maybe"
  else if tier == "maybe" then "no_hire"
  else "no_hire"

/-- Number of risk factors whose severity is `"high"`. -/
def highSeverityCount (risks : List RiskFactor) : ℕ :=
  (risks.filter (fun r => r.severity == "high")).length

/-- The four components of the spec's weighted model, in weight-table order. -/
def modelKeys : List ComponentKey :=
  [.resume_analysis, .skill_match, .interview_performance, .experience_relevance]

/-- Spec wording: the base weight of each of the four model components. -/
def specWeightOf : ComponentKey → ℚ
  | .resume_analysis => 0.30
  | .skill_match => 0.25
  | .interview_performance => 0.35
  | .experience_relevance => 0.10
  | .cultural_fit => 0

/-- Spec wording: `Σ (weight_i × score_i)` over the model components present
in the map. -/
def specWeightedSum (cs : CSMap) : ℚ :=
  (modelKeys.filterMap (fun k =>
    (lookupCS cs k).map (fun v => v.objScore * specWeightOf k))).sum

/-- Spec wording: `Σ weight_i` over the model components present in the map
(the renormalizing denominator). -/
def specWeightTotal (cs : CSMap) : ℚ :=
  (modelKeys.filterMap (fun k =>
    (lookupCS cs k).map (fun _ => specWeightOf k))).sum

/-- C1's claimed count base, per the claim's wording: only the four model
components of the map are counted (a structured score with a positive
`overall_score`). -/
def specFourComponentCount (cs : CSMap) : ℕ :=
  ((modelKeys.filterMap (fun k => lookupCS cs k)).filter
    (fun v => v.isDict && decide (v.objScore > 0))).length

/-- C5's claimed confidence formula with the count restricted to the
four-component model. -/
def specConfidenceFourComponents (cs : CSMap) (has_interview_data : Bool) : ℚ :=
  min 100 (70 + (if has_interview_data then 20 else 0) +
    10 * (specFourComponentCount cs : ℚ) / 4)

/-- The count the source actually uses: every entry of the map (including
`cultural_fit`) that is a structured score with positive `overall_score`. -/
def allDictPositiveCount (cs : CSMap) : ℕ :=
  (cs.filter (fun kv => kv.2.isDict && decide (kv.2.objScore > 0))).length

/-- The strength strings the source emits, as a filterMap over the map in
iteration order: a structured score ≥ 80 under one of the four named
component keys. -/
def specStrengthEntries (cs : CSMap) : List String :=
  cs.filterMap (fun kv =>
    if kv.2.isDict ∧ kv.2.objScore ≥ 80 then strengthTemplate kv.1 kv.2.objScore
    else none)

/-- The development-area strings the source emits, in iteration order: a
structured score < 60 under one of the four named component keys. -/
def specDevEntries (cs : CSMap) : List String :=
  cs.filterMap (fun kv =>
    if kv.2.isDict ∧ ¬ kv.2.objScore ≥ 80 ∧ kv.2.objScore < 60 then devTemplate kv.1
    else none)

/-- Number of overqualification risk factors in a risk list. -/
def overqualCount (risks : List RiskFactor) : ℕ :=
  (risks.filter (fun r => r.type == "overqualification")).length

/-- A report with its timestamp field blanked, for comparing two runs
modulo the wall clock. -/
def eraseTimestamp (r : Report) : Report :=
  { r with assessment_timestamp := none }

/-! ## Concrete inputs used by counterexamples and witnesses -/

/-- A minimal candidate dictionary (all extracted structures empty, zero
years of experience). -/
def emptyCand : Candidate :=
  { id := none, name := none, email := "", resume_text := "",
    all_skills := [], technical_skills := [], soft_skills := [],
    total_years := .int 0, job_titles := [], companies := [],
    employment_gaps := [], shows_growth := false,
    leadership_progression := false, responsibilities := [],
    experience_level := none, degrees := [], education_level := none }

/-- A minimal job dictionary. -/
def emptyJob : Job :=
  { id := none, title := none, required_skills := [], preferred_skills := [],
    experience_level := none }

/-- The minimal candidate with `total_years = -100` (an adversarial input in
the sense of the spec's testable-properties section). -/
def candNegYears : Candidate := { emptyCand with total_years := .int (-100) }

/-- The minimal candidate with `total_years = 16.5` (a Python float above
the overqualification threshold). -/
def candFloatYears : Candidate := { emptyCand with total_years := .float (33/2) }

/-- The minimal candidate with `total_years = 20` (a Python int above the
overqualification threshold). -/
def candIntYears : Candidate := { emptyCand with total_years := .int 20 }

/-- Placeholder experience score used only as the `getD` default below. -/
def dummyExpScore : ExpScore :=
  { overall_score := 0, years_alignment := 0, role_relevance := 0,
    industry_match := 0, progression_quality := 0, leadership_experience := 0,
    experience_level_match := false,
    years_vs_requirement := { total_years := .int 0, min_years := 0, max_years := 0 },
    career_highlights := [], progression_shows_growth := false,
    progression_leadership := false }

/-- The experience-relevance component computed for `candFloatYears`. -/
def expFloatYears : ExpScore :=
  (assess_experience_relevance candFloatYears emptyJob).toOption.getD dummyExpScore

/-- The experience-relevance component computed for `candIntYears`. -/
def expIntYears : ExpScore :=
  (assess_experience_relevance candIntYears emptyJob).toOption.getD dummyExpScore

/-- C1's concrete instance: only `resume_analysis` (80) and `skill_match`
(60) present. -/
def c1Map : CSMap := [(.resume_analysis, .plain 80), (.skill_match, .plain 60)]

/-- C5's concrete instance: the three always-present components plus
`cultural_fit`, all positive, no interview component. -/
def c5Map : CSMap :=
  [(.resume_analysis, .plain 50), (.skill_match, .plain 50),
   (.experience_relevance, .plain 50), (.cultural_fit, .plain 70)]

/-- C8's concrete instance: a cultural-fit component with score 85. -/
def c8Val : CulturalScore :=
  { overall_score := 85, communication_style := "professional",
    collaboration_indicators := [], adaptability_signals := [],
    values_alignment := "moderate" }

/-- The map containing only the cultural-fit component above. -/
def c8Map : CSMap := [(.cultural_fit, .cultural c8Val)]

/-! # Theorems -/

/-! ## Generic helper lemmas -/

theorem foldl_add_eq_sum {α : Type} (f : α → ℚ) (l : List α) (c : ℚ) :
    l.foldl (fun a x => a + f x) c = c + (l.map f).sum := by
  induction l generalizing c with
  | nil => simp
  | cons x xs ih => simp [ih, add_assoc]

theorem lookupCS_mem {cs : CSMap} {k : ComponentKey} {v : CompVal}
    (h : lookupCS cs k = some v) : (k, v) ∈ cs := by
  induction cs with
  | nil => simp [lookupCS, List.lookup] at h
  | cons kv rest ih =>
    obtain ⟨k1, v1⟩ := kv
    rw [lookupCS, List.lookup] at h
    by_cases hk : k = k1
    · subst hk
      simp at h
      subst h
      exact List.Mem.head _
    · have hk' : (k == k1) = false := by simpa using hk
      simp [hk'] at h
      exact List.Mem.tail _ (ih h)

theorem round2_nonneg {q : ℚ} (h : 0 ≤ q) : 0 ≤ round2 q := by
  unfold round2
  have h1 : (0 : ℤ) ≤ round (q * 100) := by
    rw [round_eq, Int.floor_nonneg]
    nlinarith
  have h2 : (0 : ℚ) ≤ ((round (q * 100) : ℤ) : ℚ) := by exact_mod_cast h1
  have h3 : (0 : ℚ) < 100 := by norm_num
  exact div_nonneg h2 h3.le

theorem round2_le_100 {q : ℚ} (h : q ≤ 100) : round2 q ≤ 100 := by
  unfold round2
  have h1 : round (q * 100) ≤ (10000 : ℤ) := by
    rw [round_eq]
    have : ⌊q * 100 + 1 / 2⌋ < (10001 : ℤ) := by
      rw [Int.floor_lt]
      push_cast
      nlinarith
    omega
  have h2 : ((round (q * 100) : ℤ) : ℚ) ≤ 10000 := by exact_mod_cast h1
  linarith [h2]

/-! ## C2: hiring recommendation tiers and one-tier downgrade -/

/-- C2: for every overall score and risk list, the hiring recommendation is
the inclusive-lower-bound tier (strong_hire ≥85, hire ≥70, maybe ≥55, else
no_hire), downgraded exactly one tier if and only if at least two risks have
severity "high", and downgraded only once however many high risks there are. -/
theorem C2_hiring_recommendation (score : ℚ) (risks : List RiskFactor) :
    determine_hiring_recommendation score risks =
      if 2 ≤ highSeverityCount risks then specDowngrade (specTier score)
      else specTier score := by
  unfold determine_hiring_recommendation specTier specDowngrade highSeverityCount
    threshold_strong_hire threshold_hire threshold_maybe
  split_ifs <;> simp_all

/-! ## C1: renormalized weighted overall score -/

/-- C1 counterexample: at the claim's own instance (only `resume_analysis` =
80 and `skill_match` = 60 present) the code returns the 2-decimal rounding
70.91, not the exact renormalized average 780/11 = 70.9090..., so the claimed
equality fails. -/
theorem C1_counterexample :
    calculate_overall_score c1Map = 7091 / 100 ∧
    (80 * (0.30 : ℚ) + 60 * 0.25) / (0.30 + 0.25) = 780 / 11 ∧
    (7091 / 100 : ℚ) ≠ 780 / 11 := by
  refine ⟨?_, by norm_num, by norm_num⟩
  have hp : presentPairs c1Map = [(80, 0.30), (60, 0.25)] := rfl
  unfold calculate_overall_score
  rw [hp]
  norm_num [List.foldl, round2, round_eq]

theorem presentPairs_fst_mul (cs : CSMap) :
    (presentPairs cs).map (fun p => p.1 * p.2) =
      modelKeys.filterMap (fun k =>
        (lookupCS cs k).map (fun v => v.objScore * specWeightOf k)) := by
  have hw : assessment_weights = modelKeys.map (fun k => (k, specWeightOf k)) := rfl
  unfold presentPairs
  rw [hw, List.filterMap_map, List.map_filterMap]
  apply List.filterMap_congr
  intro k _
  cases h : lookupCS cs k <;> simp [h]

theorem presentPairs_snd (cs : CSMap) :
    (presentPairs cs).map (fun p => p.2) =
      modelKeys.filterMap (fun k =>
        (lookupCS cs k).map (fun _ => specWeightOf k)) := by
  have hw : assessment_weights = modelKeys.map (fun k => (k, specWeightOf k)) := rfl
  unfold presentPairs
  rw [hw, List.filterMap_map, List.map_filterMap]
  apply List.filterMap_congr
  intro k _
  cases h : lookupCS cs k <;> simp [h]

theorem overall_score_renormalized (cs : CSMap) :
    calculate_overall_score cs =
      if specWeightTotal cs > 0 then round2 (specWeightedSum cs / specWeightTotal cs)
      else round2 0 := by
  have hs : (presentPairs cs).foldl (fun a p => a + p.1 * p.2) 0 = specWeightedSum cs := by
    have h := foldl_add_eq_sum (fun p : ℚ × ℚ => p.1 * p.2) (presentPairs cs) 0
    rw [h, presentPairs_fst_mul]
    unfold specWeightedSum
    ring
  have hw : (presentPairs cs).foldl (fun a p => a + p.2) 0 = specWeightTotal cs := by
    have h := foldl_add_eq_sum (fun p : ℚ × ℚ => p.2) (presentPairs cs) 0
    rw [h, presentPairs_snd]
    unfold specWeightTotal
    ring
  unfold calculate_overall_score
  dsimp only
  rw [hs, hw]
  split_ifs with h <;> rfl

/-- C1 amended: the overall score equals the renormalized weighted average
over the present model components, rounded to two decimal places (Python
`round(·, 2)`); in particular the claim's instance yields
round2((80×.30 + 60×.25)/(.30+.25)) = 70.91. -/
theorem C1_amended_rounded :
    (∀ cs : CSMap, calculate_overall_score cs =
      if specWeightTotal cs > 0 then round2 (specWeightedSum cs / specWeightTotal cs)
      else round2 0) ∧
    calculate_overall_score c1Map = round2 ((80 * 0.30 + 60 * 0.25) / (0.30 + 0.25)) := by
  refine ⟨overall_score_renormalized, ?_⟩
  have hp : presentPairs c1Map = [(80, 0.30), (60, 0.25)] := rfl
  unfold calculate_overall_score
  rw [hp]
  norm_num [List.foldl, round2, round_eq]

/-! ## C5: confidence level and the cultural-fit component -/

/-- C5 counterexample: for the pipeline-shaped map that also contains
`cultural_fit` (score 70) and no interview data, the code counts four
positive components (including cultural_fit) and returns 80, while the
claim's four-component count gives three and min(100, 70 + 10·3/4) = 77.5. -/
theorem C5_counterexample :
    calculate_confidence_level c5Map false = 80 ∧
    specConfidenceFourComponents c5Map false = 155 / 2 ∧
    (80 : ℚ) ≠ 155 / 2 := by
  refine ⟨?_, ?_, by norm_num⟩
  · have h : (c5Map.filter
        (fun kv => kv.2.isDict && decide (kv.2.objScore > 0))).length = 4 := rfl
    unfold calculate_confidence_level
    rw [h]
    rw [min_def]
    norm_num
  · have h : specFourComponentCount c5Map = 3 := rfl
    unfold specConfidenceFourComponents
    rw [h]
    rw [min_def]
    norm_num

/-- C5 amended: the confidence level equals
min(100, 70 + (20 if interview data present) + 10·k/4) where k counts every
entry of the component-score map (including `cultural_fit`) that is a
structured score with positive overall_score — not only the four model
components. -/
theorem C5_amended_all_components (cs : CSMap) (flag : Bool) :
    calculate_confidence_level cs flag =
      min 100 (70 + (if flag then 20 else 0) +
        10 * (allDictPositiveCount cs : ℚ) / 4) := by
  unfold calculate_confidence_level allDictPositiveCount
  cases flag <;> · dsimp only
                   congr 1
                   ring

/-! ## C6: skill-match score -/

/-- C6 counterexample: with candidate skills ["a"] and required
["a","b","c"] the code returns round(100/3, 2) = 33.33, not the exact
100·1/3, so the claimed exact formula fails (the empty and ["python"]
edge cases do hold). -/
theorem C6_counterexample :
    (calculate_job_match_score ["a"] ["a", "b", "c"]).match_score = 3333 / 100 ∧
    (calculate_job_match_score ["a"] ["a", "b", "c"]).matched_skills = ["a"] ∧
    (3333 / 100 : ℚ) ≠ 100 * 1 / 3 := by
  refine ⟨?_, rfl, by norm_num⟩
  have h : (calculate_job_match_score ["a"] ["a", "b", "c"]).match_score =
      round2 (((1 : ℕ) : ℚ) / ((3 : ℕ) : ℚ) * 100) := rfl
  rw [h]
  norm_num [round2, round_eq]

/-- C6 amended: for nonempty requirements the match score is the rounded
(2-decimal) value of 100·matched/total; the empty-requirements edge case
returns score 0 with empty missing list, and the `([], ["python"])` instance
returns score 0 and missing ["python"]. -/
theorem C6_amended_rounded (cand req : List String) :
    (req ≠ [] → (calculate_job_match_score cand req).match_score =
      round2 (100 * ((calculate_job_match_score cand req).matched_skills.length : ℚ) /
        req.length)) ∧
    (req = [] → calculate_job_match_score cand req =
      { match_score := 0, matched_skills := [], missing_skills := [],
        total_required := none, total_matched := none }) ∧
    (calculate_job_match_score [] ["python"]).match_score = 0 ∧
    (calculate_job_match_score [] ["python"]).missing_skills = ["python"] := by
  refine ⟨?_, ?_, ?_, rfl⟩
  · intro h
    have hne : req.isEmpty = false := by
      cases req with
      | nil => exact absurd rfl h
      | cons a as => rfl
    unfold calculate_job_match_score
    rw [hne]
    simp only [Bool.false_eq_true, if_false]
    congr 1
    ring
  · intro h
    subst h
    rfl
  · have h : (calculate_job_match_score [] ["python"]).match_score =
        round2 (((0 : ℕ) : ℚ) / ((1 : ℕ) : ℚ) * 100) := rfl
    rw [h]
    norm_num [round2, round_eq]

/-- C6 witness: the amended formula applied at a concrete nonempty input. -/
theorem C6_witness :
    (["a", "b"] : List String) ≠ [] ∧
    (calculate_job_match_score ["a"] ["a", "b"]).match_score =
      round2 (100 * ((calculate_job_match_score ["a"] ["a", "b"]).matched_skills.length : ℚ) /
        (["a", "b"] : List String).length) :=
  ⟨by decide, (C6_amended_rounded ["a"] ["a", "b"]).1 (by decide)⟩

/-! ## C3: the error boundary of `conduct_comprehensive_assessment` -/

/-- C3: the public entry point never propagates a failure — it returns the
body's report when the body succeeds and the fixed fallback report when the
body fails for any reason; the fallback (a constant, whose construction
cannot raise) carries overall_score 50, hiring_recommendation
"manual_review", confidence_level 20, and a single high-severity
technical_error risk factor. -/
theorem C3_error_boundary (cand : Candidate) (job : Job)
    (ir : Option (List InterviewResponse)) (now : String) :
    ((∃ r, assessBody cand job ir now = .ok r ∧
        conduct_comprehensive_assessment cand job ir now = r) ∨
      (∃ e, assessBody cand job ir now = .error e ∧
        conduct_comprehensive_assessment cand job ir now = get_fallback_assessment)) ∧
    get_fallback_assessment.overall_score = 50 ∧
    get_fallback_assessment.hiring_recommendation = "manual_review" ∧
    get_fallback_assessment.confidence_level = 20 ∧
    get_fallback_assessment.risk_factors =
      [{ type := "technical_error", severity := "high",
         description := "Automated assessment failed",
         mitigation := "Conduct manual review" }] := by
  refine ⟨?_, rfl, rfl, rfl, rfl⟩
  unfold conduct_comprehensive_assessment
  cases h : assessBody cand job ir now with
  | ok r => exact .inl ⟨r, rfl, rfl⟩
  | error e => exact .inr ⟨e, rfl, rfl⟩

/-! ## C8: strengths and development areas -/

theorem extractStep_char (acc : List String × List String)
    (kv : ComponentKey × CompVal) :
    extractStep acc kv =
      (acc.1 ++ (if kv.2.isDict ∧ 80 ≤ kv.2.objScore
        then strengthTemplate kv.1 kv.2.objScore else none).toList,
       acc.2 ++ (if kv.2.isDict ∧ kv.2.objScore < 80 ∧ kv.2.objScore < 60
        then devTemplate kv.1 else none).toList) := by
  unfold extractStep
  by_cases hd : kv.2.isDict
  · by_cases h80 : 80 ≤ kv.2.objScore
    · have h80x : ¬ kv.2.objScore < 80 := not_lt.mpr h80
      cases hst : strengthTemplate kv.1 kv.2.objScore <;>
        simp [hd, h80, h80x, hst]
    · have h80x : kv.2.objScore < 80 := not_le.mp h80
      by_cases h60 : kv.2.objScore < 60
      · cases hdt : devTemplate kv.1 <;> simp [hd, h80, h80x, h60, hdt]
      · simp [hd, h80, h80x, h60]
  · simp [hd]

theorem specStrength_cons (kv : ComponentKey × CompVal) (rest : CSMap) :
    specStrengthEntries (kv :: rest) =
      (if kv.2.isDict ∧ 80 ≤ kv.2.objScore
        then strengthTemplate kv.1 kv.2.objScore else none).toList ++
        specStrengthEntries rest := by
  unfold specStrengthEntries
  cases hfx : (if kv.2.isDict ∧ 80 ≤ kv.2.objScore
      then strengthTemplate kv.1 kv.2.objScore else none) <;>
    simp [List.filterMap_cons, hfx]

theorem specDev_cons (kv : ComponentKey × CompVal) (rest : CSMap) :
    specDevEntries (kv :: rest) =
      (if kv.2.isDict ∧ kv.2.objScore < 80 ∧ kv.2.objScore < 60
        then devTemplate kv.1 else none).toList ++ specDevEntries rest := by
  unfold specDevEntries
  cases hfx : (if kv.2.isDict ∧ kv.2.objScore < 80 ∧ kv.2.objScore < 60
      then devTemplate kv.1 else none) <;>
    simp [List.filterMap_cons, hfx]

theorem extract_foldl_char (cs : CSMap) (a b : List String) :
    cs.foldl extractStep (a, b) =
      (a ++ specStrengthEntries cs, b ++ specDevEntries cs) := by
  induction cs generalizing a b with
  | nil => simp [specStrengthEntries, specDevEntries]
  | cons kv rest ih =>
    rw [List.foldl_cons, extractStep_char, ih, specStrength_cons, specDev_cons]
    simp [List.append_assoc]

/-- C8 counterexample: a map holding only a cultural-fit component with
score 85 (which the engine's pipeline can produce) yields an empty strengths
list, although the claim requires one templated strength string for every
map component scoring ≥ 80. -/
theorem C8_counterexample :
    (extract_strengths_and_development_areas (.error_note "") c8Map).1 = [] ∧
    lookupCS c8Map .cultural_fit = some (.cultural c8Val) ∧
    (CompVal.cultural c8Val).objScore ≥ 80 ∧
    (CompVal.cultural c8Val).isDict = true :=
  ⟨rfl, rfl, by decide, rfl⟩

/-- C8 amended: the strengths list is one templated string per structured
component scoring ≥ 80 among the four named components only (resume_analysis,
skill_match, interview_performance, experience_relevance — cultural_fit and
bare-number entries contribute nothing), the development list one templated
string per such component scoring < 60, each truncated to 5 preserving the
map's iteration order. -/
theorem C8_amended_named_components (d : AnalysisPayload) (cs : CSMap) :
    extract_strengths_and_development_areas d cs =
      ((specStrengthEntries cs).take 5, (specDevEntries cs).take 5) := by
  unfold extract_strengths_and_development_areas
  rw [extract_foldl_char]
  simp

/-! ## C7: overqualification risk and the fragile years parse -/

theorem overqualCount_append (a b : List RiskFactor) :
    overqualCount (a ++ b) = overqualCount a + overqualCount b := by
  unfold overqualCount
  rw [List.filter_append, List.length_append]

theorem overqualCount_eq_zero (l : List RiskFactor)
    (h : ∀ r ∈ l, r.type ≠ "overqualification") : overqualCount l = 0 := by
  unfold overqualCount
  have hnil : l.filter (fun r => r.type == "overqualification") = [] := by
    rw [List.filter_eq_nil_iff]
    intro r hr
    simpa using h r hr
  rw [hnil]
  rfl

theorem employmentGapRisks_type (cand : Candidate) :
    ∀ r ∈ employmentGapRisks cand, r.type = "employment_gap" := by
  intro r hr
  unfold employmentGapRisks at hr
  rw [List.mem_filterMap] at hr
  obtain ⟨g, _, hg⟩ := hr
  dsimp only at hg
  split_ifs at hg <;>
    · simp only [Option.some.injEq] at hg
      subst hg
      rfl

theorem skillGapRisks_type (cs : CSMap) :
    ∀ r ∈ skillGapRisks cs, r.type = "skill_gap" := by
  intro r hr
  unfold skillGapRisks at hr
  rcases h : lookupCS cs .skill_match with _ | v <;> rw [h] at hr
  · simp at hr
  · dsimp only at hr
    split_ifs at hr <;>
      first
      | (simp only [List.mem_singleton] at hr
         subst hr
         rfl)
      | simp at hr

theorem interviewPerformanceRisks_type (cs : CSMap) :
    ∀ r ∈ interviewPerformanceRisks cs, r.type = "interview_performance" := by
  intro r hr
  unfold interviewPerformanceRisks at hr
  rcases h : lookupCS cs .interview_performance with _ | v <;> rw [h] at hr
  · simp at hr
  · dsimp only at hr
    split_ifs at hr <;>
      first
      | (simp only [List.mem_singleton] at hr
         subst hr
         rfl)
      | simp at hr

theorem overqualCount_risk_factors (cand : Candidate) (m : CSMap) :
    overqualCount (identify_risk_factors cand m) =
      overqualCount (overqualificationRisks m) := by
  unfold identify_risk_factors
  rw [overqualCount_append, overqualCount_append, overqualCount_append]
  rw [overqualCount_eq_zero (employmentGapRisks cand) (fun r hr => by
    rw [employmentGapRisks_type cand r hr]; decide)]
  rw [overqualCount_eq_zero (skillGapRisks m) (fun r hr => by
    rw [skillGapRisks_type m r hr]; decide)]
  rw [overqualCount_eq_zero (interviewPerformanceRisks m) (fun r hr => by
    rw [interviewPerformanceRisks_type m r hr]; decide)]
  omega

theorem exp_years_vs (cand : Candidate) (job : Job) (e : ExpScore)
    (h : assess_experience_relevance cand job = .ok e) :
    e.years_vs_requirement.total_years = cand.total_years := by
  unfold assess_experience_relevance at h
  dsimp only at h
  cases hr : calculate_role_relevance cand.job_titles (job.title.getD "") with
  | error err =>
    rw [hr] at h
    simp [Bind.bind, Except.bind] at h
  | ok rr =>
    rw [hr] at h
    simp only [Bind.bind, Except.bind, pure, Except.pure, Except.ok.injEq] at h
    subst h
    rfl

theorem listHasSub_append_left (p s n : List Char) (h : listHasSub s n = true) :
    listHasSub (p ++ s) n = true := by
  induction p with
  | nil => simpa using h
  | cons c t ih =>
    rw [List.cons_append]
    simp [listHasSub, ih]

theorem years_marker (rest : List Char) :
    listHasSub ((" years (requirement: ").data ++ rest) ("years").data = true := rfl

theorem render_has_years (yi : YearsInfo) : strContains yi.render "years" = true := by
  unfold strContains YearsInfo.render
  simp only [String.data_append, List.append_assoc]
  apply listHasSub_append_left
  exact years_marker _

/-- C7 counterexample: a candidate whose actual total years are the float
16.5 > 15 gets no overqualification risk, because `int("16.5 years ...".split()[0])`
raises ValueError which the source silently swallows — so the claim's first
clause ("for every candidate whose actual total years exceed 15, exactly one
risk") is false. -/
theorem C7_counterexample :
    (15 : ℚ) < candFloatYears.total_years.toQ ∧
    assess_experience_relevance candFloatYears emptyJob = .ok expFloatYears ∧
    overqualCount (identify_risk_factors candFloatYears
      [(.experience_relevance, .exper expFloatYears)]) = 0 := by
  refine ⟨?_, rfl, ?_⟩
  · have h : candFloatYears.total_years.toQ = 33 / 2 := rfl
    rw [h]
    norm_num
  · rw [overqualCount_risk_factors]
    unfold overqualificationRisks
    have hl : lookupCS [(.experience_relevance, .exper expFloatYears)]
        .experience_relevance = some (.exper expFloatYears) := rfl
    rw [hl]
    simp only [CompVal.isDict, if_true, CompVal.yearsVs, render_has_years]
    have hty : expFloatYears.years_vs_requirement.total_years = .float (33 / 2) := rfl
    rw [hty]
    rfl

/-- C7 amended: the overqualification risk is raised exactly once when the
candidate's total years is a Python int greater than 15 (so the re-parse of
the formatted string succeeds); for int years ≤ 15, and for any float total
years (whose string form `int()` cannot parse — the ValueError is silently
swallowed and no error propagates), no overqualification risk is raised. -/
theorem C7_amended_int_years (cand : Candidate) (job : Job) (m : CSMap)
    (e : ExpScore)
    (hok : assess_experience_relevance cand job = .ok e)
    (hm : lookupCS m .experience_relevance = some (.exper e)) :
    (∀ n : ℤ, cand.total_years = .int n → 15 < n →
      overqualCount (identify_risk_factors cand m) = 1) ∧
    (∀ n : ℤ, cand.total_years = .int n → ¬ 15 < n →
      overqualCount (identify_risk_factors cand m) = 0) ∧
    (∀ q : ℚ, cand.total_years = .float q →
      overqualCount (identify_risk_factors cand m) = 0) := by
  have hty : e.years_vs_requirement.total_years = cand.total_years :=
    exp_years_vs cand job e hok
  refine ⟨?_, ?_, ?_⟩
  · intro n hn h15
    rw [overqualCount_risk_factors]
    unfold overqualificationRisks
    rw [hm]
    simp only [CompVal.isDict, if_true, CompVal.yearsVs, render_has_years]
    rw [hty, hn]
    simp only [parseYearsToken, h15, if_true]
    rfl
  · intro n hn h15
    rw [overqualCount_risk_factors]
    unfold overqualificationRisks
    rw [hm]
    simp only [CompVal.isDict, if_true, CompVal.yearsVs, render_has_years]
    rw [hty, hn]
    simp only [parseYearsToken, h15, if_false]
    rfl
  · intro q hq
    rw [overqualCount_risk_factors]
    unfold overqualificationRisks
    rw [hm]
    simp only [CompVal.isDict, if_true, CompVal.yearsVs, render_has_years]
    rw [hty, hq]
    rfl

/-- C7 witness: the amended statement applied to a candidate with int total
years 20 and the experience component the scorer computed for it. -/
theorem C7_witness :
    assess_experience_relevance candIntYears emptyJob = .ok expIntYears ∧
    candIntYears.total_years = .int 20 ∧ (15 : ℤ) < 20 ∧
    overqualCount (identify_risk_factors candIntYears
      [(.experience_relevance, .exper expIntYears)]) = 1 :=
  ⟨rfl, rfl, by norm_num,
    (C7_amended_int_years candIntYears emptyJob
      [(.experience_relevance, .exper expIntYears)] expIntYears rfl rfl).1
      20 rfl (by norm_num)⟩

/-! ## C9: determinism modulo timestamp -/

theorem except_ok_bind {ε α β : Type} (a : α) (f : α → Except ε β) :
    (Except.ok a >>= f) = f a := rfl

theorem except_error_bind {ε α β : Type} (e : ε) (f : α → Except ε β) :
    ((Except.error e : Except ε α) >>= f) = Except.error e := rfl

theorem assessBody_timestamp (cand : Candidate) (job : Job)
    (ir : Option (List InterviewResponse)) (t : String) :
    assessBody cand job ir t =
      (assessBody cand job ir "").map
        (fun r => { r with assessment_timestamp := some t }) := by
  unfold assessBody
  dsimp only
  cases h1 : assess_experience_relevance cand job with
  | error e => rfl
  | ok ex =>
    simp only [except_ok_bind]
    cases h2 : interviewStep ir
        [(.resume_analysis, .resume (assess_resume_quality cand)),
         (.skill_match, .skill (assess_skill_match cand job)),
         (.experience_relevance, .exper ex)] with
    | error e => rfl
    | ok cs2 =>
      simp only [except_ok_bind]
      cases h3 : generate_detailed_analysis cand job cs2 with
      | error e => rfl
      | ok d =>
        simp only [except_ok_bind]
        cases h4 : assess_cultural_fit cand ir with
        | error e => rfl
        | ok cu => rfl

/-- C9: with the wall clock passed explicitly (the only impure input of
`conduct_comprehensive_assessment`), two runs on the same candidate, job and
interview data produce reports that agree on every field except the
timestamp — the computation is a deterministic function of its inputs. -/
theorem C9_deterministic_modulo_timestamp (cand : Candidate) (job : Job)
    (ir : Option (List InterviewResponse)) (t1 t2 : String) :
    eraseTimestamp (conduct_comprehensive_assessment cand job ir t1) =
      eraseTimestamp (conduct_comprehensive_assessment cand job ir t2) := by
  unfold conduct_comprehensive_assessment
  rw [assessBody_timestamp cand job ir t1, assessBody_timestamp cand job ir t2]
  cases assessBody cand job ir "" with
  | error e => rfl
  | ok r => rfl

/-! ## C10: empty interview list versus absent interview data -/

theorem conf_plus_20 (cs : CSMap) (h : cs.length ≤ 4) :
    calculate_confidence_level cs true = calculate_confidence_level cs false + 20 := by
  unfold calculate_confidence_level
  dsimp only
  have hn4 : (cs.filter (fun kv => kv.2.isDict && decide (kv.2.objScore > 0))).length ≤ 4 :=
    le_trans (List.length_filter_le _ _) h
  have hcast : ((cs.filter (fun kv => kv.2.isDict && decide (kv.2.objScore > 0))).length : ℚ) ≤ 4 := by
    exact_mod_cast hn4
  have hq : ((cs.filter (fun kv => kv.2.isDict && decide (kv.2.objScore > 0))).length : ℚ) / 4 * 10 ≤ 10 := by
    linarith
  have hq0 : (0:ℚ) ≤ ((cs.filter (fun kv => kv.2.isDict && decide (kv.2.objScore > 0))).length : ℚ) / 4 * 10 := by
    positivity
  rw [if_pos rfl, if_neg (by simp)]
  rw [min_eq_right (by linarith), min_eq_right (by linarith)]
  ring

/-- C10: passing an empty interview-response list (as opposed to None) adds
no interview component to the map (the overall score is renormalized without
it, equal to the None run), yet the confidence level still gets the +20
interview bonus, because the bonus is gated on `is not None` while the
component is gated on truthiness. -/
theorem C10_empty_interview_list (cand : Candidate) (job : Job) (t : String)
    (h : ∃ r, assessBody cand job (some []) t = .ok r) :
    lookupCS (conduct_comprehensive_assessment cand job (some []) t).component_scores
      .interview_performance = none ∧
    (conduct_comprehensive_assessment cand job (some []) t).overall_score =
      (conduct_comprehensive_assessment cand job none t).overall_score ∧
    (conduct_comprehensive_assessment cand job (some []) t).confidence_level =
      (conduct_comprehensive_assessment cand job none t).confidence_level + 20 := by
  obtain ⟨r, hr⟩ := h
  have hcu : assess_cultural_fit cand (some []) = assess_cultural_fit cand none := rfl
  unfold conduct_comprehensive_assessment
  unfold assessBody at hr ⊢
  dsimp only at hr ⊢
  rw [hcu] at hr ⊢
  cases h1 : assess_experience_relevance cand job with
  | error e =>
    rw [h1] at hr
    exact Except.noConfusion hr
  | ok ex =>
    rw [h1] at hr
    simp only [except_ok_bind] at hr ⊢
    have hi1 : interviewStep (some [])
        [(.resume_analysis, .resume (assess_resume_quality cand)),
         (.skill_match, .skill (assess_skill_match cand job)),
         (.experience_relevance, .exper ex)] = Except.ok
        [(.resume_analysis, .resume (assess_resume_quality cand)),
         (.skill_match, .skill (assess_skill_match cand job)),
         (.experience_relevance, .exper ex)] := rfl
    have hi2 : interviewStep none
        [(.resume_analysis, .resume (assess_resume_quality cand)),
         (.skill_match, .skill (assess_skill_match cand job)),
         (.experience_relevance, .exper ex)] = Except.ok
        [(.resume_analysis, .resume (assess_resume_quality cand)),
         (.skill_match, .skill (assess_skill_match cand job)),
         (.experience_relevance, .exper ex)] := rfl
    rw [hi1] at hr ⊢
    rw [hi2]
    simp only [except_ok_bind] at hr ⊢
    cases h3 : generate_detailed_analysis cand job
        [(.resume_analysis, .resume (assess_resume_quality cand)),
         (.skill_match, .skill (assess_skill_match cand job)),
         (.experience_relevance, .exper ex)] with
    | error e =>
      rw [h3] at hr
      exact Except.noConfusion hr
    | ok d =>
      rw [h3] at hr
      simp only [except_ok_bind] at hr ⊢
      cases h4 : assess_cultural_fit cand none with
      | error e =>
        rw [h4] at hr
        exact Except.noConfusion hr
      | ok cu =>
        rw [h4] at hr
        simp only [except_ok_bind] at hr ⊢
        refine ⟨rfl, rfl, ?_⟩
        exact conf_plus_20 _ (by simp)

/-- C10 witness: the empty-interview-list behavior at a concrete minimal
candidate and job. -/
theorem C10_witness :
    (∃ r, assessBody emptyCand emptyJob (some []) "T" = .ok r) ∧
    (lookupCS (conduct_comprehensive_assessment emptyCand emptyJob
        (some []) "T").component_scores .interview_performance = none ∧
      (conduct_comprehensive_assessment emptyCand emptyJob (some []) "T").overall_score =
        (conduct_comprehensive_assessment emptyCand emptyJob none "T").overall_score ∧
      (conduct_comprehensive_assessment emptyCand emptyJob (some []) "T").confidence_level =
        (conduct_comprehensive_assessment emptyCand emptyJob none "T").confidence_level + 20) :=
  ⟨⟨_, rfl⟩, C10_empty_interview_list emptyCand emptyJob "T" ⟨_, rfl⟩⟩

/-! ## C4: score ranges -/

theorem educationScore_range (level : String) :
    40 ≤ educationScore level ∧ educationScore level ≤ 100 := by
  unfold educationScore
  split_ifs <;> norm_num

theorem min100_range {x : ℚ} (hx : 0 ≤ x) :
    0 ≤ min 100 x ∧ min 100 x ≤ 100 :=
  ⟨le_min (by norm_num) hx, min_le_left _ _⟩

theorem round2_range {q : ℚ} (h0 : 0 ≤ q) (h1 : q ≤ 100) :
    0 ≤ round2 q ∧ round2 q ≤ 100 :=
  ⟨round2_nonneg h0, round2_le_100 h1⟩

theorem resumeCompleteness_range (cand : Candidate) :
    0 ≤ resumeCompleteness cand ∧ resumeCompleteness cand ≤ 100 := by
  unfold resumeCompleteness
  have h4 : resumeSectionsPresent cand ≤ 4 := by
    unfold resumeSectionsPresent
    split_ifs <;> norm_num
  have hq : ((resumeSectionsPresent cand : ℕ) : ℚ) ≤ 4 := by exact_mod_cast h4
  constructor
  · positivity
  · linarith

theorem resumeSkillDiversity_range (cand : Candidate) :
    0 ≤ resumeSkillDiversity cand ∧ resumeSkillDiversity cand ≤ 100 := by
  unfold resumeSkillDiversity
  exact min100_range (by positivity)

theorem resumeExperienceDepth_range (cand : Candidate)
    (hy : 0 ≤ cand.total_years.toQ) :
    0 ≤ resumeExperienceDepth cand ∧ resumeExperienceDepth cand ≤ 100 := by
  unfold resumeExperienceDepth
  refine min100_range ?_
  have h1 : (0:ℚ) ≤ cand.total_years.toQ * 10 :=
    mul_nonneg hy (by norm_num)
  have h2 : (0:ℚ) ≤ (cand.job_titles.length : ℚ) * 5 := by positivity
  have h3 : (0:ℚ) ≤ (cand.companies.length : ℚ) * 3 := by positivity
  linarith

theorem resumeEducationRelevance_range (cand : Candidate) :
    0 ≤ resumeEducationRelevance cand ∧ resumeEducationRelevance cand ≤ 100 := by
  unfold resumeEducationRelevance
  obtain ⟨h1, h2⟩ := educationScore_range (cand.education_level.getD "high_school")
  exact ⟨by linarith, h2⟩

theorem resumePresentationQuality_range (cand : Candidate) :
    0 ≤ resumePresentationQuality cand ∧ resumePresentationQuality cand ≤ 100 := by
  unfold resumePresentationQuality
  exact min100_range (by split_ifs <;> norm_num)

theorem assess_resume_quality_overall (cand : Candidate) :
    (assess_resume_quality cand).overall_score =
      round2 (resumeCompleteness cand * 0.25 + resumeSkillDiversity cand * 0.25 +
        resumeExperienceDepth cand * 0.25 + resumeEducationRelevance cand * 0.15 +
        resumePresentationQuality cand * 0.10) := rfl

theorem assess_resume_quality_range (cand : Candidate)
    (hy : 0 ≤ cand.total_years.toQ) :
    0 ≤ (assess_resume_quality cand).overall_score ∧
      (assess_resume_quality cand).overall_score ≤ 100 := by
  rw [assess_resume_quality_overall]
  obtain ⟨a1, a2⟩ := resumeCompleteness_range cand
  obtain ⟨b1, b2⟩ := resumeSkillDiversity_range cand
  obtain ⟨c1, c2⟩ := resumeExperienceDepth_range cand hy
  obtain ⟨d1, d2⟩ := resumeEducationRelevance_range cand
  obtain ⟨e1, e2⟩ := resumePresentationQuality_range cand
  exact round2_range (by linarith) (by linarith)

theorem calculate_job_match_score_range (c r : List String) :
    0 ≤ (calculate_job_match_score c r).match_score ∧
      (calculate_job_match_score c r).match_score ≤ 100 := by
  cases r with
  | nil => constructor <;> norm_num [calculate_job_match_score]
  | cons a as =>
    have hms : (calculate_job_match_score c (a :: as)).match_score =
        round2 (((matchedSkillsOf c (a :: as)).length : ℚ) /
          ((a :: as).length : ℚ) * 100) := rfl
    rw [hms]
    have hlen : (matchedSkillsOf c (a :: as)).length ≤ (a :: as).length :=
      List.length_filter_le _ _
    have hlenq : ((matchedSkillsOf c (a :: as)).length : ℚ) ≤ ((a :: as).length : ℚ) := by
      exact_mod_cast hlen
    have hpos : (0:ℚ) < ((a :: as).length : ℚ) := by
      have : 0 < (a :: as).length := Nat.succ_pos _
      exact_mod_cast this
    refine round2_range (by positivity) ?_
    have hdiv : ((matchedSkillsOf c (a :: as)).length : ℚ) /
        ((a :: as).length : ℚ) ≤ 1 := by
      rw [div_le_one hpos]
      exact hlenq
    nlinarith

theorem assess_skill_depth_range (t : List (String × List String))
    (r : List String) :
    0 ≤ assess_skill_depth t r ∧ assess_skill_depth t r ≤ 100 := by
  unfold assess_skill_depth
  dsimp only
  split_ifs with h1 h2
  · norm_num
  · have hple : ((t.filter (fun p => p.2 ≠ [])).length : ℚ) ≤ (t.length : ℚ) := by
      exact_mod_cast List.length_filter_le _ t
    have htpos : (0:ℚ) < (t.length : ℚ) := by exact_mod_cast h2
    have hb1 : (0:ℚ) ≤ ((t.filter (fun p => p.2 ≠ [])).length : ℚ) / (t.length : ℚ) * 100 := by
      positivity
    have hb2 : ((t.filter (fun p => p.2 ≠ [])).length : ℚ) / (t.length : ℚ) * 100 ≤ 100 := by
      have hdd : ((t.filter (fun p => p.2 ≠ [])).length : ℚ) / (t.length : ℚ) ≤ 1 := by
        rw [div_le_one htpos]
        exact hple
      nlinarith
    obtain ⟨hd1, hd2⟩ := min100_range
      (x := (((t.map (fun p => p.2.length)).sum : ℕ) : ℚ) * 5) (by positivity)
    constructor <;> nlinarith
  · obtain ⟨hd1, hd2⟩ := min100_range
      (x := (((t.map (fun p => p.2.length)).sum : ℕ) : ℚ) * 5) (by positivity)
    constructor <;> nlinarith

theorem assess_skill_match_overall (cand : Candidate) (job : Job) :
    (assess_skill_match cand job).overall_score =
      round2 (((calculate_job_match_score cand.all_skills job.required_skills).match_score * 0.7 +
        (calculate_job_match_score cand.all_skills job.preferred_skills).match_score * 0.3) * 0.8 +
        assess_skill_depth cand.technical_skills job.required_skills * 0.2) := rfl

theorem assess_skill_match_range (cand : Candidate) (job : Job) :
    0 ≤ (assess_skill_match cand job).overall_score ∧
      (assess_skill_match cand job).overall_score ≤ 100 := by
  rw [assess_skill_match_overall]
  obtain ⟨a1, a2⟩ := calculate_job_match_score_range cand.all_skills job.required_skills
  obtain ⟨b1, b2⟩ := calculate_job_match_score_range cand.all_skills job.preferred_skills
  obtain ⟨c1, c2⟩ := assess_skill_depth_range cand.technical_skills job.required_skills
  exact round2_range (by linarith) (by linarith)

theorem yearsAlignment_range (y mn mx : ℚ) (hy : 0 ≤ y) :
    0 ≤ yearsAlignment y mn mx ∧ yearsAlignment y mn mx ≤ 100 := by
  unfold yearsAlignment
  split_ifs with h1 h2 h3
  · norm_num
  · constructor
    · exact le_trans (by norm_num) (le_max_left 70 _)
    · refine max_le (by norm_num) ?_
      nlinarith
  · have hymx : y ≤ mx := not_lt.mp h2
    have hymn : y < mn := by
      by_contra hc
      push_neg at hc
      exact h1 ⟨hc, hymx⟩
    constructor
    · exact mul_nonneg (div_nonneg hy h3.le) (by norm_num)
    · have hdiv : y / mn ≤ 1 := (div_le_one h3).mpr hymn.le
      nlinarith
  · norm_num

theorem relevanceScoresFor_range (tk : List String) (titles : List String) :
    ∀ scores, relevanceScoresFor tk titles = .ok scores →
      ∀ x ∈ scores, 0 ≤ x ∧ x ≤ 100 := by
  induction titles with
  | nil =>
    intro scores h x hx
    unfold relevanceScoresFor at h
    simp only [Except.ok.injEq] at h
    subst h
    simp at hx
  | cons t rest ih =>
    intro scores h x hx
    unfold relevanceScoresFor at h
    dsimp only at h
    split_ifs at h with hzero
    cases hrec : relevanceScoresFor tk rest with
    | error e => rw [hrec] at h; exact Except.noConfusion h
    | ok os =>
      rw [hrec] at h
      simp only [except_ok_bind, pure, Except.pure, Except.ok.injEq] at h
      subst h
      rcases List.mem_cons.mp hx with hx | hx
      · subst hx
        have h1 : (tk.dedup.filter
            (fun w => (pySplitWs (pyLower t)).contains w)).length ≤ tk.dedup.length :=
          List.length_filter_le _ _
        have h2 : tk.dedup.length ≤ tk.length :=
          (List.dedup_sublist tk).length_le
        have hpos : 0 < tk.length := Nat.pos_of_ne_zero hzero
        have hposq : (0:ℚ) < (tk.length : ℚ) := by exact_mod_cast hpos
        have hleq : ((tk.dedup.filter
            (fun w => (pySplitWs (pyLower t)).contains w)).length : ℚ) ≤ (tk.length : ℚ) := by
          exact_mod_cast le_trans h1 h2
        constructor
        · positivity
        · have hdiv : ((tk.dedup.filter
              (fun w => (pySplitWs (pyLower t)).contains w)).length : ℚ) / (tk.length : ℚ) ≤ 1 := by
            rw [div_le_one hposq]
            exact hleq
          nlinarith
      · exact ih os hrec x hx

theorem pyListMax_range (x : ℚ) (xs : List ℚ) (hx : 0 ≤ x ∧ x ≤ 100)
    (hall : ∀ y ∈ xs, 0 ≤ y ∧ y ≤ 100) :
    0 ≤ pyListMax x xs ∧ pyListMax x xs ≤ 100 := by
  induction xs generalizing x with
  | nil => simpa [pyListMax] using hx
  | cons y ys ih =>
    have hstep : pyListMax x (y :: ys) = pyListMax (if y > x then y else x) ys := by
      simp [pyListMax]
    rw [hstep]
    refine ih (if y > x then y else x) ?_ (fun z hz => hall z (List.mem_cons_of_mem _ hz))
    split_ifs
    · exact hall y (List.mem_cons_self _ _)
    · exact hx

theorem calculate_role_relevance_range (titles : List String) (role : String)
    (r : ℚ) (h : calculate_role_relevance titles role = .ok r) :
    0 ≤ r ∧ r ≤ 100 := by
  unfold calculate_role_relevance at h
  split_ifs at h with hempty
  · simp only [Except.ok.injEq] at h
    subst h
    norm_num
  · dsimp only at h
    cases hsc : relevanceScoresFor (pySplitWs (pyLower role)) titles with
    | error e => rw [hsc] at h; exact Except.noConfusion h
    | ok scores =>
      rw [hsc] at h
      simp only [except_ok_bind] at h
      cases scores with
      | nil =>
        simp only [Except.ok.injEq] at h
        subst h
        norm_num
      | cons a as =>
        simp only [Except.ok.injEq] at h
        subst h
        have hall := relevanceScoresFor_range _ titles _ hsc
        exact pyListMax_range a as (hall a (List.mem_cons_self _ _))
          (fun z hz => hall z (List.mem_cons_of_mem _ hz))

theorem assess_experience_relevance_range (cand : Candidate) (job : Job)
    (e : ExpScore) (hy : 0 ≤ cand.total_years.toQ)
    (h : assess_experience_relevance cand job = .ok e) :
    (0 ≤ e.years_alignment ∧ e.years_alignment ≤ 100) ∧
    (0 ≤ e.role_relevance ∧ e.role_relevance ≤ 100) ∧
    (0 ≤ e.industry_match ∧ e.industry_match ≤ 100) ∧
    (0 ≤ e.progression_quality ∧ e.progression_quality ≤ 100) ∧
    (0 ≤ e.leadership_experience ∧ e.leadership_experience ≤ 100) ∧
    (0 ≤ e.overall_score ∧ e.overall_score ≤ 100) := by
  unfold assess_experience_relevance at h
  dsimp only at h
  cases hrr : calculate_role_relevance cand.job_titles (job.title.getD "") with
  | error err => rw [hrr] at h; exact Except.noConfusion h
  | ok rr =>
    rw [hrr] at h
    simp only [except_ok_bind, pure, Except.pure, Except.ok.injEq] at h
    subst h
    dsimp only
    obtain ⟨ya1, ya2⟩ := yearsAlignment_range cand.total_years.toQ
      (levelRequirements (job.experience_level.getD "mid")).1
      (levelRequirements (job.experience_level.getD "mid")).2 hy
    obtain ⟨rr1, rr2⟩ := calculate_role_relevance_range _ _ _ hrr
    obtain ⟨pq1, pq2⟩ := min100_range
      (x := 70 + (if cand.shows_growth then (20:ℚ) else 0) +
        (if cand.leadership_progression then (10:ℚ) else 0))
      (by split_ifs <;> norm_num)
    obtain ⟨le1, le2⟩ := min100_range
      (x := 50 + (if cand.leadership_progression then (30:ℚ) else 0) +
        (if cand.job_titles.any (fun title =>
            strContains (pyLower title) "lead" || strContains (pyLower title) "manager")
          then (20:ℚ) else 0))
      (by split_ifs <;> norm_num)
    refine ⟨⟨ya1, ya2⟩, ⟨rr1, rr2⟩, ⟨by norm_num, by norm_num⟩,
      ⟨pq1, pq2⟩, ⟨le1, le2⟩, ?_⟩
    exact round2_range (by linarith) (by linarith)

theorem pymean_range (l : List ℚ) (m a b : ℚ) (h : pymean l = .ok m)
    (hall : ∀ x ∈ l, a ≤ x ∧ x ≤ b) : a ≤ m ∧ m ≤ b := by
  unfold pymean at h
  split_ifs at h with he
  simp only [Except.ok.injEq] at h
  subst h
  have hne : l ≠ [] := by
    intro hnil
    subst hnil
    simp at he
  have hpos : 0 < l.length := List.length_pos.mpr hne
  have hposq : (0:ℚ) < (l.length : ℚ) := by exact_mod_cast hpos
  constructor
  · have hs := List.card_nsmul_le_sum l a (fun x hx => (hall x hx).1)
    rw [nsmul_eq_mul] at hs
    rw [le_div_iff₀ hposq]
    linarith
  · have hs := List.sum_le_card_nsmul l b (fun x hx => (hall x hx).2)
    rw [nsmul_eq_mul] at hs
    rw [div_le_iff₀ hposq]
    linarith

theorem assess_interview_performance_range (l : List InterviewResponse)
    (i : IntScore) (h : assess_interview_performance l = .ok i)
    (hall : ∀ r ∈ l, 0 ≤ r.evaluation.overall_score.getD 0 ∧
      r.evaluation.overall_score.getD 0 ≤ 100) :
    0 ≤ i.overall_score ∧ i.overall_score ≤ 100 := by
  unfold assess_interview_performance at h
  split_ifs at h with hemp
  · simp only [Except.ok.injEq] at h
    subst h
    norm_num
  · dsimp only at h
    have hmape : (interviewAllScores l).isEmpty = false := by
      cases l with
      | nil => simp at hemp
      | cons a as => rfl
    simp only [hmape, Bool.false_eq_true, if_false] at h
    cases hm : pymean (interviewAllScores l) with
    | error e => rw [hm] at h; exact Except.noConfusion h
    | ok mval =>
      rw [hm] at h
      simp only [except_ok_bind] at h
      cases hcat : categoryAverages (interviewCategoryGroups l) with
      | error e => rw [hcat] at h; exact Except.noConfusion h
      | ok cas =>
        rw [hcat] at h
        simp only [except_ok_bind, pure, Except.pure, Except.ok.injEq] at h
        subst h
        dsimp only
        have hb : 0 ≤ mval ∧ mval ≤ 100 := by
          refine pymean_range (interviewAllScores l) mval 0 100 hm ?_
          intro x hx
          unfold interviewAllScores at hx
          rw [List.mem_map] at hx
          obtain ⟨r, hr, rfl⟩ := hx
          exact hall r hr
        exact round2_range hb.1 hb.2

theorem assess_cultural_fit_range (cand : Candidate)
    (ir : Option (List InterviewResponse)) (c : CulturalScore)
    (h : assess_cultural_fit cand ir = .ok c)
    (hall : ∀ l, ir = some l → ∀ r ∈ l,
      0 ≤ r.evaluation.communication_clarity.getD 70 ∧
        r.evaluation.communication_clarity.getD 70 ≤ 100) :
    0 ≤ c.overall_score ∧ c.overall_score ≤ 100 := by
  unfold assess_cultural_fit at h
  dsimp only at h
  cases hT : pyTruthyL ir with
  | false =>
    simp only [hT, Bool.false_eq_true, if_false, List.map_nil, List.isEmpty_nil,
      if_true, except_ok_bind, pure, Except.pure, Except.ok.injEq] at h
    subst h
    dsimp only
    exact round2_range (by norm_num) (by norm_num)
  | true =>
    obtain ⟨lst, hlst⟩ : ∃ lst, ir = some lst := by
      cases ir with
      | none => simp [pyTruthyL] at hT
      | some lst => exact ⟨lst, rfl⟩
    subst hlst
    simp only [hT, if_true, Option.getD_some] at h
    cases hemp : (lst.map (fun r => r.evaluation.communication_clarity.getD 70)).isEmpty with
    | true =>
      simp only [hemp, if_true, except_ok_bind, pure, Except.pure,
        Except.ok.injEq] at h
      subst h
      dsimp only
      exact round2_range (by norm_num) (by norm_num)
    | false =>
      simp only [hemp, Bool.false_eq_true, if_false] at h
      cases hm : pymean (lst.map (fun r => r.evaluation.communication_clarity.getD 70)) with
      | error e => rw [hm] at h; exact Except.noConfusion h
      | ok avg =>
        rw [hm] at h
        simp only [except_ok_bind, pure, Except.pure, Except.ok.injEq] at h
        subst h
        dsimp only
        have hb : 0 ≤ avg ∧ avg ≤ 100 := by
          refine pymean_range _ avg 0 100 hm ?_
          intro x hx
          rw [List.mem_map] at hx
          obtain ⟨r, hr, rfl⟩ := hx
          exact hall lst rfl r hr
        exact round2_range (by linarith [hb.1]) (by linarith [hb.2])

theorem presentPairs_bounds (cs : CSMap)
    (hall : ∀ kv ∈ cs, 0 ≤ kv.2.objScore ∧ kv.2.objScore ≤ 100) :
    ∀ p ∈ presentPairs cs, (0 ≤ p.1 ∧ p.1 ≤ 100) ∧ 0 ≤ p.2 := by
  intro p hp
  unfold presentPairs at hp
  rw [List.mem_filterMap] at hp
  obtain ⟨kw, hkw, hmap⟩ := hp
  cases hlk : lookupCS cs kw.1 with
  | none => rw [hlk] at hmap; simp at hmap
  | some v =>
    rw [hlk] at hmap
    simp only [Option.map_some', Option.some.injEq] at hmap
    subst hmap
    refine ⟨hall (kw.1, v) (lookupCS_mem hlk), ?_⟩
    fin_cases hkw <;> norm_num

theorem weighted_pairs_bounds (l : List (ℚ × ℚ))
    (h : ∀ p ∈ l, (0 ≤ p.1 ∧ p.1 ≤ 100) ∧ 0 ≤ p.2) :
    0 ≤ (l.map (fun p => p.1 * p.2)).sum ∧
    (l.map (fun p => p.1 * p.2)).sum ≤ 100 * (l.map (fun p => p.2)).sum ∧
    0 ≤ (l.map (fun p => p.2)).sum := by
  induction l with
  | nil => simp
  | cons p ps ih =>
    obtain ⟨⟨h1, h2⟩, h3⟩ := h p (List.mem_cons_self _ _)
    obtain ⟨i1, i2, i3⟩ := ih (fun q hq => h q (List.mem_cons_of_mem _ hq))
    simp only [List.map_cons, List.sum_cons]
    refine ⟨?_, ?_, ?_⟩
    · have := mul_nonneg h1 h3
      linarith
    · nlinarith
    · linarith

theorem calculate_overall_score_range (cs : CSMap)
    (hall : ∀ kv ∈ cs, 0 ≤ kv.2.objScore ∧ kv.2.objScore ≤ 100) :
    0 ≤ calculate_overall_score cs ∧ calculate_overall_score cs ≤ 100 := by
  rw [overall_score_renormalized]
  obtain ⟨b1, b2, b3⟩ := weighted_pairs_bounds (presentPairs cs)
    (presentPairs_bounds cs hall)
  have hS : specWeightedSum cs = ((presentPairs cs).map (fun p => p.1 * p.2)).sum := by
    unfold specWeightedSum
    rw [presentPairs_fst_mul]
  have hW : specWeightTotal cs = ((presentPairs cs).map (fun p => p.2)).sum := by
    unfold specWeightTotal
    rw [presentPairs_snd]
  split_ifs with hw
  · refine round2_range ?_ ?_
    · rw [hS, hW]
      exact div_nonneg b1 (by rw [← hW]; linarith)
    · rw [hS, hW]
      rw [div_le_iff₀ (by rw [← hW]; linarith [hw])]
      linarith
  · exact round2_range (by norm_num) (by norm_num)

theorem calculate_confidence_level_range (cs : CSMap) (flag : Bool) :
    0 ≤ calculate_confidence_level cs flag ∧
      calculate_confidence_level cs flag ≤ 100 := by
  unfold calculate_confidence_level
  dsimp only
  constructor
  · refine le_min (by norm_num) ?_
    have : (0:ℚ) ≤ ((cs.filter (fun kv =>
        kv.2.isDict && decide (kv.2.objScore > 0))).length : ℚ) / 4 * 10 := by
      positivity
    split_ifs <;> linarith
  · exact min_le_left _ _

/-- C4 counterexample: an adversarial candidate with `total_years = -100`
drives the resume scorer's experience-depth sub-score (min-capped above but
not clamped below) to −1000, and the resume component overall score to −237,
far outside [0, 100] — so the claim fails for negative-years inputs. -/
theorem C4_counterexample :
    (assess_resume_quality candNegYears).overall_score = -237 ∧
    (assess_resume_quality candNegYears).overall_score < 0 := by
  have h := assess_resume_quality_overall candNegYears
  have hc : resumeCompleteness candNegYears = ((0:ℕ):ℚ) / 4 * 100 := rfl
  have hs : resumeSkillDiversity candNegYears =
      min 100 (((0:ℕ):ℚ) * 5 + ((0:ℕ):ℚ) * 10) := rfl
  have he : resumeExperienceDepth candNegYears =
      min 100 ((((-100):ℤ):ℚ) * 10 + ((0:ℕ):ℚ) * 5 + ((0:ℕ):ℚ) * 3) := rfl
  have hed : resumeEducationRelevance candNegYears = 40 := rfl
  have hp : resumePresentationQuality candNegYears = min 100 (70 + 0 + 0 + 0) := rfl
  have heq : (assess_resume_quality candNegYears).overall_score = -237 := by
    rw [h, hc, hs, he, hed, hp]
    norm_num [min_def, round2, round_eq]
  exact ⟨heq, by rw [heq]; norm_num⟩

/-- C4 amended: provided the inputs respect the data model — nonnegative
total years and per-response evaluation scores within [0, 100] — every
component overall score in the report, the aggregate overall score, the
confidence level, and each resume/experience sub-score lies in [0, 100]
(scores are capped above by min(100, ·) but not clamped below, so the
nonnegativity hypotheses are necessary). -/
theorem C4_amended_ranges (cand : Candidate) (job : Job)
    (ir : Option (List InterviewResponse)) (t : String)
    (hy : 0 ≤ cand.total_years.toQ)
    (hev : ∀ l, ir = some l → ∀ r ∈ l,
      (0 ≤ r.evaluation.overall_score.getD 0 ∧
        r.evaluation.overall_score.getD 0 ≤ 100) ∧
      (0 ≤ r.evaluation.communication_clarity.getD 70 ∧
        r.evaluation.communication_clarity.getD 70 ≤ 100)) :
    (∀ kv ∈ (conduct_comprehensive_assessment cand job ir t).component_scores,
      0 ≤ kv.2.objScore ∧ kv.2.objScore ≤ 100) ∧
    (0 ≤ (conduct_comprehensive_assessment cand job ir t).overall_score ∧
      (conduct_comprehensive_assessment cand job ir t).overall_score ≤ 100) ∧
    (0 ≤ (conduct_comprehensive_assessment cand job ir t).confidence_level ∧
      (conduct_comprehensive_assessment cand job ir t).confidence_level ≤ 100) ∧
    (0 ≤ resumeCompleteness cand ∧ resumeCompleteness cand ≤ 100) ∧
    (0 ≤ resumeSkillDiversity cand ∧ resumeSkillDiversity cand ≤ 100) ∧
    (0 ≤ resumeExperienceDepth cand ∧ resumeExperienceDepth cand ≤ 100) ∧
    (0 ≤ resumeEducationRelevance cand ∧ resumeEducationRelevance cand ≤ 100) ∧
    (0 ≤ resumePresentationQuality cand ∧ resumePresentationQuality cand ≤ 100) ∧
    (∀ e, assess_experience_relevance cand job = .ok e →
      (0 ≤ e.years_alignment ∧ e.years_alignment ≤ 100) ∧
      (0 ≤ e.role_relevance ∧ e.role_relevance ≤ 100) ∧
      (0 ≤ e.overall_score ∧ e.overall_score ≤ 100)) := by
  have hsubs : (0 ≤ resumeCompleteness cand ∧ resumeCompleteness cand ≤ 100) ∧
      (0 ≤ resumeSkillDiversity cand ∧ resumeSkillDiversity cand ≤ 100) ∧
      (0 ≤ resumeExperienceDepth cand ∧ resumeExperienceDepth cand ≤ 100) ∧
      (0 ≤ resumeEducationRelevance cand ∧ resumeEducationRelevance cand ≤ 100) ∧
      (0 ≤ resumePresentationQuality cand ∧ resumePresentationQuality cand ≤ 100) :=
    ⟨resumeCompleteness_range cand, resumeSkillDiversity_range cand,
      resumeExperienceDepth_range cand hy, resumeEducationRelevance_range cand,
      resumePresentationQuality_range cand⟩
  have hexpall : ∀ e, assess_experience_relevance cand job = .ok e →
      (0 ≤ e.years_alignment ∧ e.years_alignment ≤ 100) ∧
      (0 ≤ e.role_relevance ∧ e.role_relevance ≤ 100) ∧
      (0 ≤ e.overall_score ∧ e.overall_score ≤ 100) := by
    intro e hok
    obtain ⟨a, b, _, _, _, f⟩ := assess_experience_relevance_range cand job e hy hok
    exact ⟨a, b, f⟩
  have hmain : (∀ kv ∈ (conduct_comprehensive_assessment cand job ir t).component_scores,
      0 ≤ kv.2.objScore ∧ kv.2.objScore ≤ 100) ∧
      (0 ≤ (conduct_comprehensive_assessment cand job ir t).overall_score ∧
        (conduct_comprehensive_assessment cand job ir t).overall_score ≤ 100) ∧
      (0 ≤ (conduct_comprehensive_assessment cand job ir t).confidence_level ∧
        (conduct_comprehensive_assessment cand job ir t).confidence_level ≤ 100) := by
    unfold conduct_comprehensive_assessment
    cases hb : assessBody cand job ir t with
    | error e =>
      dsimp only
      refine ⟨?_, by norm_num [get_fallback_assessment], by norm_num [get_fallback_assessment]⟩
      intro kv hkv
      simp only [get_fallback_assessment, List.mem_cons, List.not_mem_nil,
        or_false] at hkv
      rcases hkv with rfl | rfl | rfl <;> dsimp [CompVal.objScore] <;> norm_num
    | ok r =>
      unfold assessBody at hb
      dsimp only at hb
      cases h1 : assess_experience_relevance cand job with
      | error e =>
        rw [h1] at hb
        exact Except.noConfusion hb
      | ok ex =>
        rw [h1] at hb
        simp only [except_ok_bind] at hb
        have hres := assess_resume_quality_range cand hy
        have hskl := assess_skill_match_range cand job
        have hexp6 := (assess_experience_relevance_range cand job ex hy h1).2.2.2.2.2
        unfold interviewStep at hb
        cases hT : pyTruthyL ir with
        | false =>
          simp only [hT, Bool.false_eq_true, if_false, pure_bind] at hb
          cases h3 : generate_detailed_analysis cand job
              [(.resume_analysis, .resume (assess_resume_quality cand)),
               (.skill_match, .skill (assess_skill_match cand job)),
               (.experience_relevance, .exper ex)] with
          | error e =>
            rw [h3] at hb
            exact Except.noConfusion hb
          | ok d =>
            rw [h3] at hb
            simp only [except_ok_bind] at hb
            cases h4 : assess_cultural_fit cand ir with
            | error e =>
              rw [h4] at hb
              exact Except.noConfusion hb
            | ok cu =>
              rw [h4] at hb
              simp only [except_ok_bind, pure, Except.pure, Except.ok.injEq] at hb
              subst hb
              have hcul := assess_cultural_fit_range cand ir cu h4
                (fun l hl r hr => (hev l hl r hr).2)
              have hcs2 : ∀ kv ∈ ([(.resume_analysis, .resume (assess_resume_quality cand)),
                  (.skill_match, .skill (assess_skill_match cand job)),
                  (.experience_relevance, .exper ex)] : CSMap),
                  0 ≤ kv.2.objScore ∧ kv.2.objScore ≤ 100 := by
                intro kv hkv
                simp only [List.mem_cons, List.not_mem_nil, or_false] at hkv
                rcases hkv with rfl | rfl | rfl <;> dsimp [CompVal.objScore]
                · exact hres
                · exact hskl
                · exact hexp6
              dsimp only
              refine ⟨?_, ?_, calculate_confidence_level_range _ _⟩
              · intro kv hkv
                rw [List.mem_append] at hkv
                rcases hkv with hkv | hkv
                · exact hcs2 kv hkv
                · simp only [List.mem_singleton] at hkv
                  subst hkv
                  dsimp [CompVal.objScore]
                  exact hcul
              · exact calculate_overall_score_range _ hcs2
        | true =>
          simp only [hT, if_true] at hb
          obtain ⟨lst, hlst⟩ : ∃ lst, ir = some lst := by
            cases ir with
            | none => simp [pyTruthyL] at hT
            | some lst => exact ⟨lst, rfl⟩
          subst hlst
          simp only [Option.getD_some] at hb
          cases hI : assess_interview_performance lst with
          | error e =>
            rw [hI] at hb
            exact Except.noConfusion hb
          | ok i =>
            rw [hI] at hb
            simp only [except_ok_bind, pure_bind] at hb
            cases h3 : generate_detailed_analysis cand job
                ([(.resume_analysis, .resume (assess_resume_quality cand)),
                  (.skill_match, .skill (assess_skill_match cand job)),
                  (.experience_relevance, .exper ex)] ++
                  [(.interview_performance, .interview i)]) with
            | error e =>
              rw [h3] at hb
              exact Except.noConfusion hb
            | ok d =>
              rw [h3] at hb
              simp only [except_ok_bind] at hb
              cases h4 : assess_cultural_fit cand (some lst) with
              | error e =>
                rw [h4] at hb
                exact Except.noConfusion hb
              | ok cu =>
                rw [h4] at hb
                simp only [except_ok_bind, pure, Except.pure, Except.ok.injEq] at hb
                subst hb
                have hint := assess_interview_performance_range lst i hI
                  (fun r hr => (hev lst rfl r hr).1)
                have hcul := assess_cultural_fit_range cand (some lst) cu h4
                  (fun l hl r hr => by
                    cases hl
                    exact (hev lst rfl r hr).2)
                have hcs2 : ∀ kv ∈ (([(.resume_analysis, .resume (assess_resume_quality cand)),
                    (.skill_match, .skill (assess_skill_match cand job)),
                    (.experience_relevance, .exper ex)] ++
                    [(.interview_performance, .interview i)]) : CSMap),
                    0 ≤ kv.2.objScore ∧ kv.2.objScore ≤ 100 := by
                  intro kv hkv
                  simp only [List.mem_append, List.mem_cons, List.not_mem_nil,
                    or_false, List.mem_singleton] at hkv
                  rcases hkv with (rfl | rfl | rfl) | rfl <;> dsimp [CompVal.objScore]
                  · exact hres
                  · exact hskl
                  · exact hexp6
                  · exact hint
                dsimp only
                refine ⟨?_, ?_, calculate_confidence_level_range _ _⟩
                · intro kv hkv
                  rw [List.mem_append] at hkv
                  rcases hkv with hkv | hkv
                  · exact hcs2 kv hkv
                  · simp only [List.mem_singleton] at hkv
                    subst hkv
                    dsimp [CompVal.objScore]
                    exact hcul
                · exact calculate_overall_score_range _ hcs2
  exact ⟨hmain.1, hmain.2.1, hmain.2.2, hsubs.1, hsubs.2.1, hsubs.2.2.1,
    hsubs.2.2.2.1, hsubs.2.2.2.2, hexpall⟩

/-- C4 witness: the amended range statement at a concrete minimal candidate
(total years 0, no interview data). -/
theorem C4_witness :
    (0 ≤ emptyCand.total_years.toQ) ∧
    (0 ≤ (conduct_comprehensive_assessment emptyCand emptyJob none "T").overall_score ∧
      (conduct_comprehensive_assessment emptyCand emptyJob none "T").overall_score ≤ 100) :=
  ⟨by norm_num [emptyCand, PyNum.toQ],
    (C4_amended_ranges emptyCand emptyJob none "T"
      (by norm_num [emptyCand, PyNum.toQ])
      (fun l hl => by cases hl)).2.1⟩

end Assessment
